import Mathlib

/-!
# PEPL-UI Surface tree: data model, builders, validators, accessibility

Shallow embedding of the PEPL-UI component-model crate (`src/prop_value.rs`,
`src/surface.rs`, `src/accessibility.rs`, `src/registry.rs`,
`src/components/{layout,content,interactive,list,feedback}.rs`).

Modelling conventions:
* Rust `f64` is modelled as `Rat`.  Every numeric constant appearing in the
  claims (`0.0`, `1.0`, `-0.5`, `1.5`, `0.75`, `100.0`) is exactly
  representable in `f64`, and the operations the claims exercise
  (`clamp`, multiplication by `100.0`, `round`) are exact on those inputs,
  so the rational model agrees with the IEEE semantics there.
* Rust `BTreeMap<String, _>` is modelled as an association list kept sorted
  by the key order (`keyLt`, UTF-8 byte order, which on valid UTF-8 equals
  code-point order).  All mutation goes through `insertProp`, mirroring
  `BTreeMap::insert`.
* Code that can panic (the byte-index slice `&value[..100]` in
  `auto_label`) is modelled with `Option`: `none` is a panic.
* `serde_json` serialization is modelled at the JSON-tree level (`Json`),
  field order in `Json.obj` being the emission order of the serializer.
-/

namespace PeplUI

/-! ## Key order: Rust `String` `Ord` (UTF-8 byte order = code-point order) -/

/-- Strict lexicographic order on char lists by code point, modelling Rust's
`Ord for String` (byte-wise order on UTF-8, which coincides with code-point
order). -/
def charListLt : List Char → List Char → Bool
  | [], [] => false
  | [], _ :: _ => true
  | _ :: _, [] => false
  | c :: cs, d :: ds =>
    if c.toNat < d.toNat then true
    else if d.toNat < c.toNat then false
    else charListLt cs ds

/-- Rust `String` `Ord` comparison used by `BTreeMap<String, _>`. -/
def keyLt (a b : String) : Bool := charListLt a.data b.data

theorem charListLt_irrefl : ∀ cs, charListLt cs cs = false := by
  intro cs
  induction cs with
  | nil => rfl
  | cons c cs ih => simp [charListLt, ih]

theorem charListLt_asymm :
    ∀ {a b}, charListLt a b = true → charListLt b a = false := by
  intro a
  induction a with
  | nil =>
    intro b h
    cases b with
    | nil => simp [charListLt] at h
    | cons d ds => simp [charListLt]
  | cons c cs ih =>
    intro b h
    cases b with
    | nil => simp [charListLt] at h
    | cons d ds =>
      simp only [charListLt] at h ⊢
      by_cases h1 : c.toNat < d.toNat
      · simp [h1, Nat.lt_asymm h1, Nat.ne_of_gt h1]
      · by_cases h2 : d.toNat < c.toNat
        · simp [h1, h2] at h
        · simp only [h1, h2, if_false, if_true] at h ⊢
          exact ih h

theorem charListLt_trans :
    ∀ {a b c}, charListLt a b = true → charListLt b c = true →
      charListLt a c = true := by
  intro a
  induction a with
  | nil =>
    intro b c hab hbc
    cases b with
    | nil => simp [charListLt] at hab
    | cons d ds =>
      cases c with
      | nil => simp [charListLt] at hbc
      | cons e es => simp [charListLt]
  | cons x xs ih =>
    intro b c hab hbc
    cases b with
    | nil => simp [charListLt] at hab
    | cons d ds =>
      cases c with
      | nil => simp [charListLt] at hbc
      | cons e es =>
        simp only [charListLt] at hab hbc ⊢
        rcases Nat.lt_trichotomy x.toNat d.toNat with h1 | h1 | h1
        · rcases Nat.lt_trichotomy d.toNat e.toNat with h2 | h2 | h2
          · simp [Nat.lt_trans h1 h2]
          · simp [h2 ▸ h1]
          · simp [h1, Nat.lt_asymm h1, Nat.ne_of_gt h1] at hab
            simp [h2, Nat.lt_asymm h2, Nat.ne_of_gt h2] at hbc
        · rcases Nat.lt_trichotomy d.toNat e.toNat with h2 | h2 | h2
          · simp [h1 ▸ h2]
          · have hxe : x.toNat = e.toNat := h1.trans h2
            simp only [h1, h2, hxe, lt_irrefl, if_false] at hab hbc ⊢
            exact ih hab hbc
          · simp [h2, Nat.lt_asymm h2, Nat.ne_of_gt h2] at hbc
        · simp [h1, Nat.lt_asymm h1, Nat.ne_of_gt h1] at hab

theorem charListLt_total :
    ∀ a b, charListLt a b = true ∨ charListLt b a = true ∨ a = b := by
  intro a
  induction a with
  | nil =>
    intro b
    cases b with
    | nil => right; right; rfl
    | cons d ds => left; simp [charListLt]
  | cons c cs ih =>
    intro b
    cases b with
    | nil => right; left; simp [charListLt]
    | cons d ds =>
      rcases Nat.lt_trichotomy c.toNat d.toNat with h | h | h
      · left; simp [charListLt, h]
      · have hcd : c = d := Char.eq_of_val_eq (UInt32.ext h)
        rcases ih ds with h2 | h2 | h2
        · left; simp [charListLt, h, h2]
        · right; left; simp [charListLt, h.symm, h2]
        · right; right; rw [hcd, h2]
      · right; left; simp [charListLt, h, Nat.lt_asymm h, Nat.ne_of_gt h]

theorem keyLt_irrefl (a : String) : keyLt a a = false :=
  charListLt_irrefl a.data

theorem keyLt_asymm {a b : String} (h : keyLt a b = true) : keyLt b a = false :=
  charListLt_asymm h

theorem keyLt_trans {a b c : String} (h1 : keyLt a b = true)
    (h2 : keyLt b c = true) : keyLt a c = true :=
  charListLt_trans h1 h2

theorem keyLt_total (a b : String) :
    keyLt a b = true ∨ keyLt b a = true ∨ a = b := by
  rcases charListLt_total a.data b.data with h | h | h
  · exact Or.inl h
  · exact Or.inr (Or.inl h)
  · exact Or.inr (Or.inr (String.ext h))

theorem keyLt_of_ne_of_not_lt {a b : String} (hne : a ≠ b)
    (h : keyLt a b = false) : keyLt b a = true := by
  rcases keyLt_total a b with h1 | h1 | h1
  · rw [h1] at h; exact absurd h (by simp)
  · exact h1
  · exact absurd h1 hne

/-! ## PropValue (`src/prop_value.rs`)

A closed tagged union of the nine prop value variants.  `Record` fields are
the sorted entry list of the Rust `BTreeMap<String, PropValue>`;
`lambda_id` is a Rust `u32`, modelled as `Nat` (the `< 2^32` bound is
tracked where it matters). -/

inductive PropValue where
  | string (s : String)
  | number (n : Rat)
  | bool (b : Bool)
  | nil
  | color (r g b a : Rat)
  | actionRef (action : String) (args : Option (List PropValue))
  | lambda (lambda_id : Nat)
  | list (xs : List PropValue)
  | record (fields : List (String × PropValue))

/-- `PropValue::type_name` — stable lowercase identifier per variant, used in
validator error messages. -/
def PropValue.type_name : PropValue → String
  | .string _ => "string"
  | .number _ => "number"
  | .bool _ => "bool"
  | .nil => "nil"
  | .color _ _ _ _ => "color"
  | .actionRef _ _ => "action"
  | .lambda _ => "lambda"
  | .list _ => "list"
  | .record _ => "record"

/-- `PropValue::action` — action reference without arguments. -/
def PropValue.action (name : String) : PropValue := .actionRef name none

/-- `PropValue::action_with_args`. -/
def PropValue.action_with_args (name : String) (args : List PropValue) :
    PropValue := .actionRef name (some args)

/-! ## Sorted association lists modelling `BTreeMap<String, α>` -/

/-- `BTreeMap::get`: keyed lookup (keys are unique in a well-formed map). -/
def alookup {α : Type} (k : String) : List (String × α) → Option α
  | [] => none
  | (k1, v1) :: rest => if k = k1 then some v1 else alookup k rest

/-- `BTreeMap::insert` on the sorted entry list: replaces the value when the
key is present, otherwise inserts at the sorted position. -/
def insertProp {α : Type} (k : String) (v : α) :
    List (String × α) → List (String × α)
  | [] => [(k, v)]
  | (k1, v1) :: rest =>
    if keyLt k k1 then (k, v) :: (k1, v1) :: rest
    else if k = k1 then (k, v) :: rest
    else (k1, v1) :: insertProp k v rest

/-- Strictly ascending key order: the well-formedness invariant of the
sorted entry list of a `BTreeMap`. -/
def keysSorted {α : Type} (ps : List (String × α)) : Prop :=
  List.Pairwise (fun a b => keyLt a.1 b.1 = true) ps

instance {α : Type} (ps : List (String × α)) : Decidable (keysSorted ps) :=
  List.instDecidablePairwise ps

/-- Builds the map by inserting the entries in order, starting empty
(a sequence of `BTreeMap::insert` / `set_prop` calls). -/
def buildMap {α : Type} (entries : List (String × α)) :
    List (String × α) :=
  entries.foldl (fun ps kv => insertProp kv.1 kv.2 ps) []

theorem insertProp_cons_lt {α : Type} {k k1 : String} (v v1 : α)
    (tl : List (String × α)) (h : keyLt k k1 = true) :
    insertProp k v ((k1, v1) :: tl) = (k, v) :: (k1, v1) :: tl := by
  simp [insertProp, h]

theorem insertProp_cons_eq {α : Type} {k k1 : String} (v v1 : α)
    (tl : List (String × α)) (h : k = k1) :
    insertProp k v ((k1, v1) :: tl) = (k, v) :: tl := by
  subst h
  simp [insertProp, keyLt_irrefl]

theorem insertProp_cons_gt {α : Type} {k k1 : String} (v v1 : α)
    (tl : List (String × α)) (h1 : keyLt k k1 = false) (h2 : k ≠ k1) :
    insertProp k v ((k1, v1) :: tl) = (k1, v1) :: insertProp k v tl := by
  simp [insertProp, h1, h2]

theorem alookup_insertProp {α : Type} (k k1 : String) (v : α)
    (ps : List (String × α)) :
    alookup k (insertProp k1 v ps) =
      if k = k1 then some v else alookup k ps := by
  induction ps with
  | nil =>
    by_cases h : k = k1 <;> simp [insertProp, alookup, h]
  | cons hd tl ih =>
    obtain ⟨k2, v2⟩ := hd
    by_cases h1 : keyLt k1 k2 = true
    · rw [insertProp_cons_lt _ _ _ h1]
      by_cases h : k = k1 <;> simp [alookup, h]
    · by_cases h2 : k1 = k2
      · rw [insertProp_cons_eq _ _ _ h2]
        subst h2
        by_cases h : k = k1 <;> simp [alookup, h]
      · rw [insertProp_cons_gt _ _ _ (Bool.eq_false_iff.mpr h1) h2]
        by_cases h : k = k2
        · subst h
          have hne : k ≠ k1 := fun hh => h2 hh.symm
          simp [alookup, hne]
        · simp [alookup, h, ih]

theorem insertProp_mem {α : Type} {k : String} {v : α} {a : String × α} :
    ∀ {ps : List (String × α)}, a ∈ insertProp k v ps →
      a = (k, v) ∨ a ∈ ps := by
  intro ps
  induction ps with
  | nil => intro h; simp [insertProp] at h; exact Or.inl h
  | cons hd tl ih =>
    intro h
    obtain ⟨k1, v1⟩ := hd
    by_cases h1 : keyLt k k1 = true
    · rw [insertProp_cons_lt _ _ _ h1, List.mem_cons] at h
      rcases h with h | h
      · exact Or.inl h
      · exact Or.inr h
    · by_cases h2 : k = k1
      · rw [insertProp_cons_eq _ _ _ h2, List.mem_cons] at h
        rcases h with h | h
        · exact Or.inl h
        · exact Or.inr (List.mem_cons_of_mem _ h)
      · rw [insertProp_cons_gt _ _ _ (Bool.eq_false_iff.mpr h1) h2,
          List.mem_cons] at h
        rcases h with h | h
        · rw [h]; exact Or.inr (List.mem_cons_self _ _)
        · rcases ih h with h3 | h3
          · exact Or.inl h3
          · exact Or.inr (List.mem_cons_of_mem _ h3)

theorem insertProp_keysSorted {α : Type} (k : String) (v : α)
    {ps : List (String × α)} (hs : keysSorted ps) :
    keysSorted (insertProp k v ps) := by
  induction ps with
  | nil => simp [insertProp, keysSorted]
  | cons hd tl ih =>
    obtain ⟨k1, v1⟩ := hd
    rw [keysSorted, List.pairwise_cons] at hs
    obtain ⟨hbound, htl⟩ := hs
    by_cases h1 : keyLt k k1 = true
    · rw [insertProp_cons_lt _ _ _ h1, keysSorted, List.pairwise_cons]
      refine ⟨?_, ?_⟩
      · intro b hb
        rw [List.mem_cons] at hb
        rcases hb with hb | hb
        · rw [hb]; exact h1
        · exact keyLt_trans h1 (hbound b hb)
      · rw [List.pairwise_cons]
        exact ⟨hbound, htl⟩
    · by_cases h2 : k = k1
      · rw [insertProp_cons_eq _ _ _ h2, keysSorted, List.pairwise_cons]
        subst h2
        exact ⟨hbound, htl⟩
      · rw [insertProp_cons_gt _ _ _ (Bool.eq_false_iff.mpr h1) h2,
          keysSorted, List.pairwise_cons]
        have hk1k : keyLt k1 k = true := keyLt_of_ne_of_not_lt h2
          (Bool.eq_false_iff.mpr h1)
        refine ⟨?_, ih htl⟩
        intro b hb
        rcases insertProp_mem hb with h3 | h3
        · rw [h3]; exact hk1k
        · exact hbound b h3

theorem insertProp_comm {α : Type} (k k' : String) (v v' : α)
    (hne : k ≠ k') (ps : List (String × α)) :
    insertProp k v (insertProp k' v' ps) =
      insertProp k' v' (insertProp k v ps) := by
  have hne' : k' ≠ k := Ne.symm hne
  induction ps with
  | nil =>
    rcases keyLt_total k k' with h | h | h
    · have h2 : keyLt k' k = false := keyLt_asymm h
      show insertProp k v [(k', v')] = insertProp k' v' [(k, v)]
      rw [insertProp_cons_lt _ _ _ h, insertProp_cons_gt _ _ _ h2 hne']
      rfl
    · have h2 : keyLt k k' = false := keyLt_asymm h
      show insertProp k v [(k', v')] = insertProp k' v' [(k, v)]
      rw [insertProp_cons_gt _ _ _ h2 hne, insertProp_cons_lt _ _ _ h]
      rfl
    · exact absurd h hne
  | cons hd tl ih =>
    obtain ⟨k1, v1⟩ := hd
    rcases keyLt_total k' k1 with hA' | hG' | hE'
    · -- k' < k1
      rw [insertProp_cons_lt v' v1 tl hA']
      rcases keyLt_total k k1 with hA | hG | hE
      · -- k < k1 as well: compare k and k'
        rcases keyLt_total k k' with h | h | h
        · rw [insertProp_cons_lt v v' _ h, insertProp_cons_lt v v1 tl hA,
            insertProp_cons_gt v' v _ (keyLt_asymm h) hne',
            insertProp_cons_lt v' v1 tl hA']
        · rw [insertProp_cons_gt v v' _ (keyLt_asymm h) hne,
            insertProp_cons_lt v v1 tl hA, insertProp_cons_lt v' v _ h]
        · exact absurd h hne
      · -- k1 < k, so k' < k1 < k
        have hkk : keyLt k' k = true := keyLt_trans hA' hG
        have hEn : k ≠ k1 := fun hh => by
          rw [hh] at hG; exact absurd hG (by simp [keyLt_irrefl])
        rw [insertProp_cons_gt v v' _ (keyLt_asymm hkk) hne,
          insertProp_cons_gt v v1 tl (keyLt_asymm hG) hEn,
          insertProp_cons_lt v' v1 _ hA']
      · -- k = k1, so k' < k
        subst hE
        rw [insertProp_cons_gt v v' _ (keyLt_asymm hA') hne,
          insertProp_cons_eq v v1 tl rfl, insertProp_cons_lt v' v tl hA']
    · -- k1 < k'
      have hA'f : keyLt k' k1 = false := keyLt_asymm hG'
      have hE'n : k' ≠ k1 := fun hh => by
        rw [hh] at hG'; exact absurd hG' (by simp [keyLt_irrefl])
      rw [insertProp_cons_gt v' v1 tl hA'f hE'n]
      rcases keyLt_total k k1 with hA | hG | hE
      · -- k < k1 < k'
        have hkk : keyLt k k' = true := keyLt_trans hA hG'
        rw [insertProp_cons_lt v v1 _ hA, insertProp_cons_lt v v1 tl hA,
          insertProp_cons_gt v' v _ (keyLt_asymm hkk) hne',
          insertProp_cons_gt v' v1 tl hA'f hE'n]
      · -- k1 < k and k1 < k'
        have hAf : keyLt k k1 = false := keyLt_asymm hG
        have hEn : k ≠ k1 := fun hh => by
          rw [hh] at hG; exact absurd hG (by simp [keyLt_irrefl])
        rw [insertProp_cons_gt v v1 _ hAf hEn, ih,
          insertProp_cons_gt v v1 tl hAf hEn,
          insertProp_cons_gt v' v1 _ hA'f hE'n]
      · -- k = k1 < k'
        subst hE
        rw [insertProp_cons_eq v v1 _ rfl, insertProp_cons_eq v v1 tl rfl,
          insertProp_cons_gt v' v tl (keyLt_asymm hG') hne']
    · -- k' = k1
      subst hE'
      rw [insertProp_cons_eq v' v1 tl rfl]
      rcases keyLt_total k k' with h | h | h
      · rw [insertProp_cons_lt v v' tl h, insertProp_cons_lt v v1 tl h,
          insertProp_cons_gt v' v _ (keyLt_asymm h) hne',
          insertProp_cons_eq v' v1 tl rfl]
      · rw [insertProp_cons_gt v v' tl (keyLt_asymm h) hne,
          insertProp_cons_gt v v1 tl (keyLt_asymm h) hne,
          insertProp_cons_eq v' v1 _ rfl]
      · exact absurd h hne

/-! ## SurfaceNode and Surface (`src/surface.rs`) -/

/-- A node of the Surface tree: component type tag, sorted props map,
ordered children. -/
inductive SurfaceNode where
  | mk (component_type : String) (props : List (String × PropValue))
      (children : List SurfaceNode)

/-- The `component_type` field. -/
def SurfaceNode.component_type : SurfaceNode → String
  | .mk ct _ _ => ct

/-- The `props` field (sorted entry list of the `BTreeMap`). -/
def SurfaceNode.props : SurfaceNode → List (String × PropValue)
  | .mk _ ps _ => ps

/-- The `children` field. -/
def SurfaceNode.children : SurfaceNode → List SurfaceNode
  | .mk _ _ cs => cs

/-- `SurfaceNode::new` — empty props and children. -/
def SurfaceNode.new (component_type : String) : SurfaceNode :=
  .mk component_type [] []

/-- `SurfaceNode::set_prop` (and the builder alias `with_prop`):
`self.props.insert(key, value)`. -/
def SurfaceNode.set_prop (n : SurfaceNode) (key : String) (value : PropValue) :
    SurfaceNode :=
  match n with
  | .mk ct ps cs => .mk ct (insertProp key value ps) cs

/-- `SurfaceNode::with_prop` — same map insert, by-value builder style. -/
def SurfaceNode.with_prop (n : SurfaceNode) (key : String)
    (value : PropValue) : SurfaceNode :=
  n.set_prop key value

/-- `SurfaceNode::add_child` / `with_child`. -/
def SurfaceNode.add_child (n : SurfaceNode) (child : SurfaceNode) :
    SurfaceNode :=
  match n with
  | .mk ct ps cs => .mk ct ps (cs ++ [child])

/-- `SurfaceNode::with_children` — replaces the children vector. -/
def SurfaceNode.with_children (n : SurfaceNode) (cs : List SurfaceNode) :
    SurfaceNode :=
  match n with
  | .mk ct ps _ => .mk ct ps cs

/-- `Surface` — wraps one root node. -/
structure Surface where
  root : SurfaceNode

/-! ## Accessibility module (`src/accessibility.rs`) -/

/-- `SemanticRole` — closed 15-value accessibility role enum. -/
inductive SemanticRole where
  | button | textField | progressBar | heading | image | link | checkbox
  | slider | list | dialog | alert | group | region | text | none
deriving DecidableEq

/-- `SemanticRole::as_str`. -/
def SemanticRole.as_str : SemanticRole → String
  | .button => "button"
  | .textField => "textfield"
  | .progressBar => "progressbar"
  | .heading => "heading"
  | .image => "image"
  | .link => "link"
  | .checkbox => "checkbox"
  | .slider => "slider"
  | .list => "list"
  | .dialog => "dialog"
  | .alert => "alert"
  | .group => "group"
  | .region => "region"
  | .text => "text"
  | .none => "none"

/-- `SemanticRole::parse` — partial inverse; unrecognized strings map to
`Option.none`. -/
def SemanticRole.parse (s : String) : Option SemanticRole :=
  if s = "button" then some .button
  else if s = "textfield" then some .textField
  else if s = "progressbar" then some .progressBar
  else if s = "heading" then some .heading
  else if s = "image" then some .image
  else if s = "link" then some .link
  else if s = "checkbox" then some .checkbox
  else if s = "slider" then some .slider
  else if s = "list" then some .list
  else if s = "dialog" then some .dialog
  else if s = "alert" then some .alert
  else if s = "group" then some .group
  else if s = "region" then some .region
  else if s = "text" then some .text
  else if s = "none" then some .none
  else Option.none

/-- `SemanticRole::valid_values`. -/
def SemanticRole.valid_values : List String :=
  ["button", "textfield", "progressbar", "heading", "image", "link",
   "checkbox", "slider", "list", "dialog", "alert", "group", "region",
   "text", "none"]

/-- `LiveRegion` — polite or assertive announcements. -/
inductive LiveRegion where
  | polite | assertive
deriving DecidableEq

/-- `LiveRegion::as_str`. -/
def LiveRegion.as_str : LiveRegion → String
  | .polite => "polite"
  | .assertive => "assertive"

/-- `LiveRegion::parse`. -/
def LiveRegion.parse (s : String) : Option LiveRegion :=
  if s = "polite" then some .polite
  else if s = "assertive" then some .assertive
  else none

/-- `AccessibilityInfo` — screen-reader metadata attached under the
`"accessible"` prop. -/
structure AccessibilityInfo where
  label : String
  hint : Option String
  role : Option SemanticRole
  value : Option String
  live_region : Option LiveRegion
deriving DecidableEq

/-- `AccessibilityInfo::new` — label only, all optional fields absent. -/
def AccessibilityInfo.new (label : String) : AccessibilityInfo :=
  ⟨label, none, none, none, none⟩

/-- `AccessibilityInfo::to_prop_value` — builds the `PropValue::Record` by
`BTreeMap` inserts of the present fields (label, then hint, role, value,
live_region when set). -/
def AccessibilityInfo.to_prop_value (info : AccessibilityInfo) : PropValue :=
  let fields : List (String × PropValue) :=
    insertProp "label" (.string info.label) []
  let fields := match info.hint with
    | some h => insertProp "hint" (.string h) fields
    | none => fields
  let fields := match info.role with
    | some r => insertProp "role" (.string r.as_str) fields
    | none => fields
  let fields := match info.value with
    | some v => insertProp "value" (.string v) fields
    | none => fields
  let fields := match info.live_region with
    | some lr => insertProp "live_region" (.string lr.as_str) fields
    | none => fields
  .record fields

/-- `default_role` — fixed total table from component type to role;
any unmapped name yields `none`. -/
def default_role (component_type : String) : SemanticRole :=
  if component_type = "Button" then .button
  else if component_type = "TextInput" then .textField
  else if component_type = "Text" then .text
  else if component_type = "ProgressBar" then .progressBar
  else if component_type = "Column" then .group
  else if component_type = "Row" then .group
  else if component_type = "Scroll" then .region
  else if component_type = "ScrollList" then .list
  else if component_type = "Modal" then .dialog
  else if component_type = "Toast" then .alert
  else .none

/-- `extract_string_prop` — the prop's string payload, if it is a string. -/
def extract_string_prop (props : List (String × PropValue)) (key : String) :
    Option String :=
  match alookup key props with
  | some (.string s) => some s
  | _ => none

/-- Rust byte slice `&value[..budget]` on a UTF-8 string, expressed over the
char list: consumes whole chars while UTF-8 budget remains; `none` when the
byte index falls strictly inside a character (Rust panics there). -/
def takeBytes : Nat → List Char → Option (List Char)
  | 0, _ => some []
  | _ + 1, [] => none
  | n + 1, c :: cs =>
    if c.utf8Size ≤ n + 1 then
      (takeBytes (n + 1 - c.utf8Size) cs).map (fun rest => c :: rest)
    else
      none

/-- The Text arm of `auto_label`: Rust tests `value.len() > 100` (UTF-8
*byte* length) and slices `&value[..100]` (*byte* index, panics off a char
boundary), then appends one ellipsis character.  `none` models the panic. -/
def truncateTextLabel (value : String) : Option String :=
  if value.utf8ByteSize > 100 then
    (takeBytes 100 value.data).map (fun cs => String.mk cs ++ "…")
  else
    some value

/-- Rust `f64::round` (half away from zero) followed by `as i64`, on the
rational model. -/
def rustRound (x : Rat) : Int :=
  if 0 ≤ x then ⌊x + 1 / 2⌋ else -⌊-x + 1 / 2⌋

/-- `auto_label` — per-type auto accessible label.  `none` models the panic
of the Text byte-truncation branch. -/
def auto_label (component_type : String)
    (props : List (String × PropValue)) : Option String :=
  if component_type = "Button" then
    some ((extract_string_prop props "label").getD "Button")
  else if component_type = "TextInput" then
    some (((extract_string_prop props "label").or
      (extract_string_prop props "placeholder")).getD "Text input")
  else if component_type = "Text" then
    truncateTextLabel ((extract_string_prop props "value").getD "Text")
  else if component_type = "ProgressBar" then
    match alookup "value" props with
    | some (.number v) =>
      let pct := rustRound (v * 100)
      some s!"{pct}% complete"
    | _ => some "Progress bar"
  else if component_type = "Modal" then
    some ((extract_string_prop props "title").getD "Dialog")
  else if component_type = "Toast" then
    some ((extract_string_prop props "message").getD "Notification")
  else if component_type = "ScrollList" then
    some "List"
  else
    some component_type

/-- `auto_accessible` — label from `auto_label`, role from `default_role`,
plus the ProgressBar `value` field and the Toast assertive live region.
`none` models the Text-branch panic. -/
def auto_accessible (component_type : String)
    (props : List (String × PropValue)) : Option AccessibilityInfo :=
  match auto_label component_type props with
  | none => none
  | some label =>
    let info : AccessibilityInfo :=
      { AccessibilityInfo.new label with role := some (default_role component_type) }
    let info :=
      if component_type = "ProgressBar" then
        match alookup "value" props with
        | some (.number v) =>
          let pct := rustRound (v * 100)
          { info with value := some s!"{pct}%" }
        | _ => info
      else info
    let info :=
      if component_type = "Toast" then
        { info with live_region := some .assertive }
      else info
    some info

/-- `ensure_accessible` — no-op when the `"accessible"` prop is present;
otherwise attaches the auto-derived record.  `none` models a panic inside
`auto_accessible`. -/
def ensure_accessible (node : SurfaceNode) : Option SurfaceNode :=
  if (alookup "accessible" node.props).isSome then
    some node
  else
    (auto_accessible node.component_type node.props).map
      (fun info => node.set_prop "accessible" info.to_prop_value)

/-- Rust `{:?}` of a `&[&str]` slice, e.g. `["button", "textfield"]`. -/
def debugStrList (xs : List String) : String :=
  "[" ++ String.intercalate ", " (xs.map (fun s => "\"" ++ s ++ "\"")) ++ "]"

/-- `validate_accessible_prop` — structural validation of an explicitly
authored `accessible` record; non-record input reports one error and stops. -/
def validate_accessible_prop (component_name : String) (prop : PropValue) :
    List String :=
  match prop with
  | .record fields =>
    (match alookup "label" fields with
     | some (.string _) => []
     | some other =>
       let tn := other.type_name
       [s!"{component_name}.accessible.label: expected string, got {tn}"]
     | none =>
       [s!"{component_name}.accessible.label: required field missing"])
    ++
    (match alookup "hint" fields with
     | none => []
     | some (.string _) => []
     | some other =>
       let tn := other.type_name
       [s!"{component_name}.accessible.hint: expected string, got {tn}"])
    ++
    (match alookup "role" fields with
     | none => []
     | some (.string s) =>
       if (SemanticRole.parse s).isSome then []
       else
         let vals := debugStrList SemanticRole.valid_values
         [s!"{component_name}.accessible.role: unknown role \x27{s}\x27, expected one of {vals}"]
     | some other =>
       let tn := other.type_name
       [s!"{component_name}.accessible.role: expected string, got {tn}"])
    ++
    (match alookup "value" fields with
     | none => []
     | some (.string _) => []
     | some other =>
       let tn := other.type_name
       [s!"{component_name}.accessible.value: expected string, got {tn}"])
    ++
    (match alookup "live_region" fields with
     | none => []
     | some (.string s) =>
       if (LiveRegion.parse s).isSome then []
       else
         [s!"{component_name}.accessible.live_region: expected \x27polite\x27 or \x27assertive\x27, got \x27{s}\x27"]
     | some other =>
       let tn := other.type_name
       [s!"{component_name}.accessible.live_region: expected string, got {tn}"])
    ++
    (fields.filterMap (fun kv =>
      let key := kv.1
      if key ∈ (["label", "hint", "role", "value", "live_region"] : List String) then
        Option.none
      else
        some s!"{component_name}.accessible: unknown field \x27{key}\x27"))
  | _ =>
    let tn := prop.type_name
    [s!"{component_name}.accessible: expected record, got {tn}"]

/-! ## Shared value types (`src/types.rs`) -/

/-- `ColorValue` — RGBA, each channel nominally `0.0–1.0` (not enforced). -/
structure ColorValue where
  r : Rat
  g : Rat
  b : Rat
  a : Rat
deriving DecidableEq

/-- `Alignment` — layout alignment enum. -/
inductive Alignment where
  | start | center | «end» | stretch | spaceBetween | spaceAround
deriving DecidableEq

/-- `Edges` — uniform inset or per-side insets. -/
inductive Edges where
  | uniform (n : Rat)
  | sides (top bottom start «end» : Rat)
deriving DecidableEq

/-! ## Content builders (`src/components/content.rs`) -/

/-- `TextSize` enum. -/
inductive TextSize where
  | small | body | title | heading | display
deriving DecidableEq

/-- `TextSize::as_str`. -/
def TextSize.as_str : TextSize → String
  | .small => "small"
  | .body => "body"
  | .title => "title"
  | .heading => "heading"
  | .display => "display"

/-- `TextWeight` enum. -/
inductive TextWeight where
  | normal | medium | bold
deriving DecidableEq

/-- `TextWeight::as_str`. -/
def TextWeight.as_str : TextWeight → String
  | .normal => "normal"
  | .medium => "medium"
  | .bold => "bold"

/-- `TextAlign` enum. -/
inductive TextAlign where
  | start | center | «end»
deriving DecidableEq

/-- `TextAlign::as_str`. -/
def TextAlign.as_str : TextAlign → String
  | .start => "start"
  | .center => "center"
  | .«end» => "end"

/-- `TextOverflow` enum. -/
inductive TextOverflow where
  | clip | ellipsis | wrap
deriving DecidableEq

/-- `TextOverflow::as_str`. -/
def TextOverflow.as_str : TextOverflow → String
  | .clip => "clip"
  | .ellipsis => "ellipsis"
  | .wrap => "wrap"

/-- `TextBuilder` — staging struct for the `Text` component. -/
structure TextBuilder where
  value : String
  size : Option TextSize
  weight : Option TextWeight
  color : Option ColorValue
  align : Option TextAlign
  max_lines : Option Rat
  overflow : Option TextOverflow

/-- `TextBuilder::new`. -/
def TextBuilder.new (value : String) : TextBuilder :=
  ⟨value, none, none, none, none, none, none⟩

/-- `TextBuilder::build` — sets `value` and each present optional prop.
Note: the source does not invoke `ensure_accessible` here. -/
def TextBuilder.build (b : TextBuilder) : SurfaceNode :=
  let node := SurfaceNode.new "Text"
  let node := node.set_prop "value" (.string b.value)
  let node := match b.size with
    | some s => node.set_prop "size" (.string s.as_str)
    | none => node
  let node := match b.weight with
    | some w => node.set_prop "weight" (.string w.as_str)
    | none => node
  let node := match b.color with
    | some c => node.set_prop "color" (.color c.r c.g c.b c.a)
    | none => node
  let node := match b.align with
    | some a => node.set_prop "align" (.string a.as_str)
    | none => node
  let node := match b.max_lines with
    | some m => node.set_prop "max_lines" (.number m)
    | none => node
  let node := match b.overflow with
    | some o => node.set_prop "overflow" (.string o.as_str)
    | none => node
  node

/-- Rust `f64::clamp(lo, hi)` on the rational model. -/
def rustClamp (x lo hi : Rat) : Rat :=
  if x < lo then lo else if hi < x then hi else x

/-- `ProgressBarBuilder` — staging struct for `ProgressBar`; `new` clamps
`value` into `0.0–1.0`. -/
structure ProgressBarBuilder where
  value : Rat
  color : Option ColorValue
  background : Option ColorValue
  height : Option Rat

/-- `ProgressBarBuilder::new` — clamps the value. -/
def ProgressBarBuilder.new (value : Rat) : ProgressBarBuilder :=
  ⟨rustClamp value 0 1, none, none, none⟩

/-- `ProgressBarBuilder::build`.  No `ensure_accessible` call in source. -/
def ProgressBarBuilder.build (b : ProgressBarBuilder) : SurfaceNode :=
  let node := SurfaceNode.new "ProgressBar"
  let node := node.set_prop "value" (.number b.value)
  let node := match b.color with
    | some c => node.set_prop "color" (.color c.r c.g c.b c.a)
    | none => node
  let node := match b.background with
    | some c => node.set_prop "background" (.color c.r c.g c.b c.a)
    | none => node
  let node := match b.height with
    | some h => node.set_prop "height" (.number h)
    | none => node
  node

/-! ## Interactive builders (`src/components/interactive.rs`) -/

/-- `ButtonVariant` enum. -/
inductive ButtonVariant where
  | filled | outlined | text
deriving DecidableEq

/-- `ButtonVariant::as_str`. -/
def ButtonVariant.as_str : ButtonVariant → String
  | .filled => "filled"
  | .outlined => "outlined"
  | .text => "text"

/-- `KeyboardType` enum. -/
inductive KeyboardType where
  | text | number | email | phone | url
deriving DecidableEq

/-- `KeyboardType::as_str`. -/
def KeyboardType.as_str : KeyboardType → String
  | .text => "text"
  | .number => "number"
  | .email => "email"
  | .phone => "phone"
  | .url => "url"

/-- `ButtonBuilder` — staging struct for `Button`. -/
structure ButtonBuilder where
  label : String
  on_tap : PropValue
  variant : Option ButtonVariant
  icon : Option String
  disabled : Option Bool
  loading : Option Bool

/-- `ButtonBuilder::new`. -/
def ButtonBuilder.new (label : String) (on_tap : PropValue) : ButtonBuilder :=
  ⟨label, on_tap, none, none, none, none⟩

/-- `ButtonBuilder::build`.  No `ensure_accessible` call in source. -/
def ButtonBuilder.build (b : ButtonBuilder) : SurfaceNode :=
  let node := SurfaceNode.new "Button"
  let node := node.set_prop "label" (.string b.label)
  let node := node.set_prop "on_tap" b.on_tap
  let node := match b.variant with
    | some v => node.set_prop "variant" (.string v.as_str)
    | none => node
  let node := match b.icon with
    | some i => node.set_prop "icon" (.string i)
    | none => node
  let node := match b.disabled with
    | some d => node.set_prop "disabled" (.bool d)
    | none => node
  let node := match b.loading with
    | some l => node.set_prop "loading" (.bool l)
    | none => node
  node

/-- `TextInputBuilder` — staging struct for `TextInput`. -/
structure TextInputBuilder where
  value : String
  on_change : PropValue
  placeholder : Option String
  label : Option String
  keyboard : Option KeyboardType
  max_length : Option Rat
  multiline : Option Bool

/-- `TextInputBuilder::new`. -/
def TextInputBuilder.new (value : String) (on_change : PropValue) :
    TextInputBuilder :=
  ⟨value, on_change, none, none, none, none, none⟩

/-- `TextInputBuilder::build`.  No `ensure_accessible` call in source. -/
def TextInputBuilder.build (b : TextInputBuilder) : SurfaceNode :=
  let node := SurfaceNode.new "TextInput"
  let node := node.set_prop "value" (.string b.value)
  let node := node.set_prop "on_change" b.on_change
  let node := match b.placeholder with
    | some p => node.set_prop "placeholder" (.string p)
    | none => node
  let node := match b.label with
    | some l => node.set_prop "label" (.string l)
    | none => node
  let node := match b.keyboard with
    | some k => node.set_prop "keyboard" (.string k.as_str)
    | none => node
  let node := match b.max_length with
    | some m => node.set_prop "max_length" (.number m)
    | none => node
  let node := match b.multiline with
    | some m => node.set_prop "multiline" (.bool m)
    | none => node
  node

/-! ## Feedback builders (`src/components/feedback.rs`) -/

/-- `ToastType` enum. -/
inductive ToastType where
  | info | success | warning | error
deriving DecidableEq

/-- `ToastType::as_str`. -/
def ToastType.as_str : ToastType → String
  | .info => "info"
  | .success => "success"
  | .warning => "warning"
  | .error => "error"

/-- `ModalBuilder` — staging struct for `Modal` (accepts children). -/
structure ModalBuilder where
  visible : Bool
  on_dismiss : PropValue
  title : Option String
  children : List SurfaceNode

/-- `ModalBuilder::new`. -/
def ModalBuilder.new (visible : Bool) (on_dismiss : PropValue) :
    ModalBuilder :=
  ⟨visible, on_dismiss, none, []⟩

/-- `ModalBuilder::build`.  No `ensure_accessible` call in source. -/
def ModalBuilder.build (b : ModalBuilder) : SurfaceNode :=
  let node := SurfaceNode.new "Modal"
  let node := node.set_prop "visible" (.bool b.visible)
  let node := node.set_prop "on_dismiss" b.on_dismiss
  let node := match b.title with
    | some t => node.set_prop "title" (.string t)
    | none => node
  b.children.foldl (fun n c => n.add_child c) node

/-- `ToastBuilder` — staging struct for `Toast`. -/
structure ToastBuilder where
  message : String
  duration : Option Rat
  toast_type : Option ToastType

/-- `ToastBuilder::new`. -/
def ToastBuilder.new (message : String) : ToastBuilder :=
  ⟨message, none, none⟩

/-- `ToastBuilder::build`.  No `ensure_accessible` call in source. -/
def ToastBuilder.build (b : ToastBuilder) : SurfaceNode :=
  let node := SurfaceNode.new "Toast"
  let node := node.set_prop "message" (.string b.message)
  let node := match b.duration with
    | some d => node.set_prop "duration" (.number d)
    | none => node
  let node := match b.toast_type with
    | some t => node.set_prop "type" (.string t.as_str)
    | none => node
  node

/-! ## Layout builders (`src/components/layout.rs`) -/

/-- `alignment_to_prop`. -/
def alignment_to_prop : Alignment → PropValue
  | .start => .string "start"
  | .center => .string "center"
  | .«end» => .string "end"
  | .stretch => .string "stretch"
  | .spaceBetween => .string "space_between"
  | .spaceAround => .string "space_around"

/-- `edges_to_prop` — `Uniform` collapses to a bare number; `Sides` becomes
the four-key record (`serde` round-trip through JSON, so sorted keys
`bottom, end, start, top`). -/
def edges_to_prop : Edges → PropValue
  | .uniform n => .number n
  | .sides top bottom start e =>
    .record [("bottom", .number bottom), ("end", .number e),
             ("start", .number start), ("top", .number top)]

/-- `ColumnBuilder` — staging struct for `Column`. -/
structure ColumnBuilder where
  spacing : Option Rat
  align : Option Alignment
  padding : Option Edges
  children : List SurfaceNode

/-- `ColumnBuilder::new`. -/
def ColumnBuilder.new : ColumnBuilder := ⟨none, none, none, []⟩

/-- `ColumnBuilder::build` — sets props, assigns children, then calls
`ensure_accessible` (hence `Option`: `none` models a panic, which the
Column label path never takes). -/
def ColumnBuilder.build (b : ColumnBuilder) : Option SurfaceNode :=
  let node := SurfaceNode.new "Column"
  let node := match b.spacing with
    | some s => node.set_prop "spacing" (.number s)
    | none => node
  let node := match b.align with
    | some a => node.set_prop "align" (alignment_to_prop a)
    | none => node
  let node := match b.padding with
    | some p => node.set_prop "padding" (edges_to_prop p)
    | none => node
  let node := node.with_children b.children
  ensure_accessible node

/-- `RowBuilder` — staging struct for `Row`. -/
structure RowBuilder where
  spacing : Option Rat
  align : Option Alignment
  padding : Option Edges
  children : List SurfaceNode

/-- `RowBuilder::new`. -/
def RowBuilder.new : RowBuilder := ⟨none, none, none, []⟩

/-- `RowBuilder::build` — like Column, ends with `ensure_accessible`. -/
def RowBuilder.build (b : RowBuilder) : Option SurfaceNode :=
  let node := SurfaceNode.new "Row"
  let node := match b.spacing with
    | some s => node.set_prop "spacing" (.number s)
    | none => node
  let node := match b.align with
    | some a => node.set_prop "align" (alignment_to_prop a)
    | none => node
  let node := match b.padding with
    | some p => node.set_prop "padding" (edges_to_prop p)
    | none => node
  let node := node.with_children b.children
  ensure_accessible node

/-- `ScrollDirection` enum (default `vertical`). -/
inductive ScrollDirection where
  | vertical | horizontal | both
deriving DecidableEq

/-- `ScrollDirection::as_str`. -/
def ScrollDirection.as_str : ScrollDirection → String
  | .vertical => "vertical"
  | .horizontal => "horizontal"
  | .both => "both"

/-- `ScrollBuilder` — staging struct for `Scroll`. -/
structure ScrollBuilder where
  direction : ScrollDirection
  children : List SurfaceNode

/-- `ScrollBuilder::new` — default direction `vertical`. -/
def ScrollBuilder.new : ScrollBuilder := ⟨.vertical, []⟩

/-- `ScrollBuilder::build` — sets `direction`, children, then
`ensure_accessible`. -/
def ScrollBuilder.build (b : ScrollBuilder) : Option SurfaceNode :=
  let node := SurfaceNode.new "Scroll"
  let node := node.set_prop "direction" (.string b.direction.as_str)
  let node := node.with_children b.children
  ensure_accessible node

/-! ## List builder (`src/components/list.rs`) -/

/-- `ScrollListBuilder` — staging struct for `ScrollList`. -/
structure ScrollListBuilder where
  items : PropValue
  render : PropValue
  key : PropValue
  on_reorder : Option PropValue
  dividers : Option Bool

/-- `ScrollListBuilder::new`. -/
def ScrollListBuilder.new (items render key : PropValue) :
    ScrollListBuilder :=
  ⟨items, render, key, none, none⟩

/-- `ScrollListBuilder::build` — sets props, then `ensure_accessible`. -/
def ScrollListBuilder.build (b : ScrollListBuilder) : Option SurfaceNode :=
  let node := SurfaceNode.new "ScrollList"
  let node := node.set_prop "items" b.items
  let node := node.set_prop "render" b.render
  let node := node.set_prop "key" b.key
  let node := match b.on_reorder with
    | some r => node.set_prop "on_reorder" r
    | none => node
  let node := match b.dividers with
    | some d => node.set_prop "dividers" (.bool d)
    | none => node
  ensure_accessible node

/-! ## Category validators

Error strings follow the Rust `format!` templates.  `{:?}` (derived `Debug`)
of a `PropValue` is modelled by `PropValue.debugRepr`; its numeric rendering
inherits the `Rat` abstraction of `f64` (no claim inspects those strings). -/

/-- Rust derived `Debug` for `PropValue` (structure only; numbers render via
the rational model). -/
def PropValue.debugRepr : PropValue → String
  | .string s => "String(\"" ++ s ++ "\")"
  | .number n => "Number(" ++ toString n ++ ")"
  | .bool b => "Bool(" ++ toString b ++ ")"
  | .nil => "Nil"
  | .color r g b a =>
    "Color \x7b r: " ++ toString r ++ ", g: " ++ toString g ++ ", b: " ++
      toString b ++ ", a: " ++ toString a ++ " \x7d"
  | .actionRef act none =>
    "ActionRef \x7b action: \"" ++ act ++ "\", args: None \x7d"
  | .actionRef act (some args) =>
    "ActionRef \x7b action: \"" ++ act ++ "\", args: Some([" ++
      String.intercalate ", "
        (args.attach.map (fun x => PropValue.debugRepr x.1)) ++ "]) \x7d"
  | .lambda i => "Lambda \x7b lambda_id: " ++ toString i ++ " \x7d"
  | .list xs =>
    "List([" ++
      String.intercalate ", "
        (xs.attach.map (fun x => PropValue.debugRepr x.1)) ++ "])"
  | .record fs =>
    "Record(\x7b" ++
      String.intercalate ", "
        (fs.attach.map (fun p =>
          "\"" ++ p.1.1 ++ "\": " ++ PropValue.debugRepr p.1.2)) ++
      "\x7d)"
termination_by v => sizeOf v
decreasing_by
  all_goals
    first
    | (have h := List.sizeOf_lt_of_mem x.2; simp_all; omega)
    | (have h := List.sizeOf_lt_of_mem p.2; cases hp : p.1; simp_all; omega)

/-- `validate_text` (`content.rs`): required `value`, optional enum and
typed props, no children, unknown-prop scan — in that order. -/
def validate_text (node : SurfaceNode) : List String :=
  (match alookup "value" node.props with
   | some (.string _) => []
   | some other =>
     let tn := other.type_name
     [s!"Text.value: expected string, got {tn}"]
   | none => ["Text.value: required prop missing"])
  ++
  (match alookup "size" node.props with
   | none => []
   | some prop =>
     match prop with
     | .string s =>
       if s ∈ (["small", "body", "title", "heading", "display"] : List String)
       then []
       else
         let dbg := prop.debugRepr
         [s!"Text.size: expected one of [small, body, title, heading, display], got {dbg}"]
     | _ =>
       let dbg := prop.debugRepr
       [s!"Text.size: expected one of [small, body, title, heading, display], got {dbg}"])
  ++
  (match alookup "weight" node.props with
   | none => []
   | some prop =>
     match prop with
     | .string s =>
       if s ∈ (["normal", "medium", "bold"] : List String) then []
       else
         let dbg := prop.debugRepr
         [s!"Text.weight: expected one of [normal, medium, bold], got {dbg}"]
     | _ =>
       let dbg := prop.debugRepr
       [s!"Text.weight: expected one of [normal, medium, bold], got {dbg}"])
  ++
  (match alookup "color" node.props with
   | none => []
   | some (.color _ _ _ _) => []
   | some prop =>
     let tn := prop.type_name
     [s!"Text.color: expected color, got {tn}"])
  ++
  (match alookup "align" node.props with
   | none => []
   | some prop =>
     match prop with
     | .string s =>
       if s ∈ (["start", "center", "end"] : List String) then []
       else
         let dbg := prop.debugRepr
         [s!"Text.align: expected one of [start, center, end], got {dbg}"]
     | _ =>
       let dbg := prop.debugRepr
       [s!"Text.align: expected one of [start, center, end], got {dbg}"])
  ++
  (match alookup "max_lines" node.props with
   | none => []
   | some (.number _) => []
   | some prop =>
     let tn := prop.type_name
     [s!"Text.max_lines: expected number, got {tn}"])
  ++
  (match alookup "overflow" node.props with
   | none => []
   | some prop =>
     match prop with
     | .string s =>
       if s ∈ (["clip", "ellipsis", "wrap"] : List String) then []
       else
         let dbg := prop.debugRepr
         [s!"Text.overflow: expected one of [clip, ellipsis, wrap], got {dbg}"]
     | _ =>
       let dbg := prop.debugRepr
       [s!"Text.overflow: expected one of [clip, ellipsis, wrap], got {dbg}"])
  ++
  (if node.children.isEmpty then []
   else
     let n := node.children.length
     [s!"Text: does not accept children, but got {n}"])
  ++
  (node.props.filterMap (fun kv =>
    let key := kv.1
    if key ∈ (["value", "size", "weight", "color", "align", "max_lines",
               "overflow"] : List String) then
      Option.none
    else
      some s!"Text: unknown prop \x27{key}\x27"))

/-- `validate_progress_bar` (`content.rs`). -/
def validate_progress_bar (node : SurfaceNode) : List String :=
  (match alookup "value" node.props with
   | some (.number _) => []
   | some other =>
     let tn := other.type_name
     [s!"ProgressBar.value: expected number, got {tn}"]
   | none => ["ProgressBar.value: required prop missing"])
  ++
  (match alookup "color" node.props with
   | none => []
   | some (.color _ _ _ _) => []
   | some prop =>
     let tn := prop.type_name
     [s!"ProgressBar.color: expected color, got {tn}"])
  ++
  (match alookup "background" node.props with
   | none => []
   | some (.color _ _ _ _) => []
   | some prop =>
     let tn := prop.type_name
     [s!"ProgressBar.background: expected color, got {tn}"])
  ++
  (match alookup "height" node.props with
   | none => []
   | some (.number _) => []
   | some prop =>
     let tn := prop.type_name
     [s!"ProgressBar.height: expected number, got {tn}"])
  ++
  (if node.children.isEmpty then []
   else
     let n := node.children.length
     [s!"ProgressBar: does not accept children, but got {n}"])
  ++
  (node.props.filterMap (fun kv =>
    let key := kv.1
    if key ∈ (["value", "color", "background", "height"] : List String) then
      Option.none
    else
      some s!"ProgressBar: unknown prop \x27{key}\x27"))

/-- `validate_content_node` — dispatch on `component_type`; unknown content
component yields one error naming it. -/
def validate_content_node (node : SurfaceNode) : List String :=
  let ct := node.component_type
  if ct = "Text" then validate_text node
  else if ct = "ProgressBar" then validate_progress_bar node
  else ["Unknown content component: " ++ ct]

/-- `validate_button` (`interactive.rs`). -/
def validate_button (node : SurfaceNode) : List String :=
  (match alookup "label" node.props with
   | some (.string _) => []
   | some other =>
     let tn := other.type_name
     [s!"Button.label: expected string, got {tn}"]
   | none => ["Button.label: required prop missing"])
  ++
  (match alookup "on_tap" node.props with
   | some (.actionRef _ _) => []
   | some other =>
     let tn := other.type_name
     [s!"Button.on_tap: expected action, got {tn}"]
   | none => ["Button.on_tap: required prop missing"])
  ++
  (match alookup "variant" node.props with
   | none => []
   | some prop =>
     match prop with
     | .string s =>
       if s ∈ (["filled", "outlined", "text"] : List String) then []
       else
         let dbg := prop.debugRepr
         [s!"Button.variant: expected one of [filled, outlined, text], got {dbg}"]
     | _ =>
       let dbg := prop.debugRepr
       [s!"Button.variant: expected one of [filled, outlined, text], got {dbg}"])
  ++
  (match alookup "icon" node.props with
   | none => []
   | some (.string _) => []
   | some prop =>
     let tn := prop.type_name
     [s!"Button.icon: expected string, got {tn}"])
  ++
  (match alookup "disabled" node.props with
   | none => []
   | some (.bool _) => []
   | some prop =>
     let tn := prop.type_name
     [s!"Button.disabled: expected bool, got {tn}"])
  ++
  (match alookup "loading" node.props with
   | none => []
   | some (.bool _) => []
   | some prop =>
     let tn := prop.type_name
     [s!"Button.loading: expected bool, got {tn}"])
  ++
  (if node.children.isEmpty then []
   else
     let n := node.children.length
     [s!"Button: does not accept children, but got {n}"])
  ++
  (node.props.filterMap (fun kv =>
    let key := kv.1
    if key ∈ (["label", "on_tap", "variant", "icon", "disabled",
               "loading"] : List String) then
      Option.none
    else
      some s!"Button: unknown prop \x27{key}\x27"))

/-- `validate_text_input` (`interactive.rs`). -/
def validate_text_input (node : SurfaceNode) : List String :=
  (match alookup "value" node.props with
   | some (.string _) => []
   | some other =>
     let tn := other.type_name
     [s!"TextInput.value: expected string, got {tn}"]
   | none => ["TextInput.value: required prop missing"])
  ++
  (match alookup "on_change" node.props with
   | some (.lambda _) => []
   | some other =>
     let tn := other.type_name
     [s!"TextInput.on_change: expected lambda, got {tn}"]
   | none => ["TextInput.on_change: required prop missing"])
  ++
  (match alookup "placeholder" node.props with
   | none => []
   | some (.string _) => []
   | some prop =>
     let tn := prop.type_name
     [s!"TextInput.placeholder: expected string, got {tn}"])
  ++
  (match alookup "label" node.props with
   | none => []
   | some (.string _) => []
   | some prop =>
     let tn := prop.type_name
     [s!"TextInput.label: expected string, got {tn}"])
  ++
  (match alookup "keyboard" node.props with
   | none => []
   | some prop =>
     match prop with
     | .string s =>
       if s ∈ (["text", "number", "email", "phone", "url"] : List String)
       then []
       else
         let dbg := prop.debugRepr
         [s!"TextInput.keyboard: expected one of [text, number, email, phone, url], got {dbg}"]
     | _ =>
       let dbg := prop.debugRepr
       [s!"TextInput.keyboard: expected one of [text, number, email, phone, url], got {dbg}"])
  ++
  (match alookup "max_length" node.props with
   | none => []
   | some (.number _) => []
   | some prop =>
     let tn := prop.type_name
     [s!"TextInput.max_length: expected number, got {tn}"])
  ++
  (match alookup "multiline" node.props with
   | none => []
   | some (.bool _) => []
   | some prop =>
     let tn := prop.type_name
     [s!"TextInput.multiline: expected bool, got {tn}"])
  ++
  (if node.children.isEmpty then []
   else
     let n := node.children.length
     [s!"TextInput: does not accept children, but got {n}"])
  ++
  (node.props.filterMap (fun kv =>
    let key := kv.1
    if key ∈ (["value", "on_change", "placeholder", "label", "keyboard",
               "max_length", "multiline"] : List String) then
      Option.none
    else
      some s!"TextInput: unknown prop \x27{key}\x27"))

/-- `validate_interactive_node` — dispatch; unknown interactive component
yields one error naming it. -/
def validate_interactive_node (node : SurfaceNode) : List String :=
  let ct := node.component_type
  if ct = "Button" then validate_button node
  else if ct = "TextInput" then validate_text_input node
  else ["Unknown interactive component: " ++ ct]

/-- `validate_modal` (`feedback.rs`); children are allowed. -/
def validate_modal (node : SurfaceNode) : List String :=
  (match alookup "visible" node.props with
   | some (.bool _) => []
   | some other =>
     let tn := other.type_name
     [s!"Modal.visible: expected bool, got {tn}"]
   | none => ["Modal.visible: required prop missing"])
  ++
  (match alookup "on_dismiss" node.props with
   | some (.actionRef _ _) => []
   | some other =>
     let tn := other.type_name
     [s!"Modal.on_dismiss: expected action, got {tn}"]
   | none => ["Modal.on_dismiss: required prop missing"])
  ++
  (match alookup "title" node.props with
   | none => []
   | some (.string _) => []
   | some prop =>
     let tn := prop.type_name
     [s!"Modal.title: expected string, got {tn}"])
  ++
  (node.props.filterMap (fun kv =>
    let key := kv.1
    if key ∈ (["visible", "on_dismiss", "title"] : List String) then
      Option.none
    else
      some s!"Modal: unknown prop \x27{key}\x27"))

/-- `validate_toast` (`feedback.rs`). -/
def validate_toast (node : SurfaceNode) : List String :=
  (match alookup "message" node.props with
   | some (.string _) => []
   | some other =>
     let tn := other.type_name
     [s!"Toast.message: expected string, got {tn}"]
   | none => ["Toast.message: required prop missing"])
  ++
  (match alookup "duration" node.props with
   | none => []
   | some (.number _) => []
   | some prop =>
     let tn := prop.type_name
     [s!"Toast.duration: expected number, got {tn}"])
  ++
  (match alookup "type" node.props with
   | none => []
   | some prop =>
     match prop with
     | .string s =>
       if s ∈ (["info", "success", "warning", "error"] : List String) then []
       else
         let dbg := prop.debugRepr
         [s!"Toast.type: expected one of [info, success, warning, error], got {dbg}"]
     | _ =>
       let dbg := prop.debugRepr
       [s!"Toast.type: expected one of [info, success, warning, error], got {dbg}"])
  ++
  (if node.children.isEmpty then []
   else
     let n := node.children.length
     [s!"Toast: does not accept children, but got {n}"])
  ++
  (node.props.filterMap (fun kv =>
    let key := kv.1
    if key ∈ (["message", "duration", "type"] : List String) then
      Option.none
    else
      some s!"Toast: unknown prop \x27{key}\x27"))

/-- `validate_feedback_node` — dispatch; unknown feedback component yields
one error naming it. -/
def validate_feedback_node (node : SurfaceNode) : List String :=
  let ct := node.component_type
  if ct = "Modal" then validate_modal node
  else if ct = "Toast" then validate_toast node
  else ["Unknown feedback component: " ++ ct]

/-- `validate_scroll_list` (`list.rs`); note it delegates an `accessible`
prop to `validate_accessible_prop` before the unknown-prop scan. -/
def validate_scroll_list (node : SurfaceNode) : List String :=
  (match alookup "items" node.props with
   | some (.list _) => []
   | some other =>
     let tn := other.type_name
     [s!"ScrollList.items: expected list, got {tn}"]
   | none => ["ScrollList.items: required prop missing"])
  ++
  (match alookup "render" node.props with
   | some (.lambda _) => []
   | some other =>
     let tn := other.type_name
     [s!"ScrollList.render: expected lambda, got {tn}"]
   | none => ["ScrollList.render: required prop missing"])
  ++
  (match alookup "key" node.props with
   | some (.lambda _) => []
   | some other =>
     let tn := other.type_name
     [s!"ScrollList.key: expected lambda, got {tn}"]
   | none => ["ScrollList.key: required prop missing"])
  ++
  (match alookup "on_reorder" node.props with
   | none => []
   | some (.lambda _) => []
   | some prop =>
     let tn := prop.type_name
     [s!"ScrollList.on_reorder: expected lambda, got {tn}"])
  ++
  (match alookup "dividers" node.props with
   | none => []
   | some (.bool _) => []
   | some prop =>
     let tn := prop.type_name
     [s!"ScrollList.dividers: expected bool, got {tn}"])
  ++
  (if node.children.isEmpty then []
   else
     let n := node.children.length
     [s!"ScrollList: does not accept children, but got {n}"])
  ++
  (match alookup "accessible" node.props with
   | none => []
   | some prop => validate_accessible_prop "ScrollList" prop)
  ++
  (node.props.filterMap (fun kv =>
    let key := kv.1
    if key ∈ (["items", "render", "key", "on_reorder", "dividers",
               "accessible"] : List String) then
      Option.none
    else
      some s!"ScrollList: unknown prop \x27{key}\x27"))

/-- `validate_list_node` — dispatch; unknown list component yields one
error naming it. -/
def validate_list_node (node : SurfaceNode) : List String :=
  let ct := node.component_type
  if ct = "ScrollList" then validate_scroll_list node
  else ["Unknown list component: " ++ ct]

/-- Per-prop check of the `Column`/`Row` arm of `validate_layout_node`:
an `accessible` key delegates to `validate_accessible_prop`. -/
def columnRowPropErrors (ct : String) (kv : String × PropValue) :
    List String :=
  let k := kv.1
  let v := kv.2
  if k = "spacing" then
    match v with
    | .number _ => []
    | _ =>
      let tn := v.type_name
      [s!"{ct}: \x27spacing\x27 must be a number, got {tn}"]
  else if k = "align" then
    match v with
    | .string s =>
      if s ∈ (["start", "center", "end", "stretch", "space_between",
               "space_around"] : List String) then []
      else [s!"{ct}: invalid alignment \x27{s}\x27"]
    | _ =>
      let tn := v.type_name
      [s!"{ct}: \x27align\x27 must be a string, got {tn}"]
  else if k = "padding" then
    match v with
    | .number _ => []
    | .record _ => []
    | _ =>
      let tn := v.type_name
      [s!"{ct}: \x27padding\x27 must be a number or record, got {tn}"]
  else if k = "accessible" then
    validate_accessible_prop ct v
  else
    [s!"{ct}: unknown prop \x27{k}\x27"]

/-- Per-prop check of the `Scroll` arm of `validate_layout_node`. -/
def scrollPropErrors (kv : String × PropValue) : List String :=
  let k := kv.1
  let v := kv.2
  if k = "direction" then
    match v with
    | .string s =>
      if s ∈ (["vertical", "horizontal", "both"] : List String) then []
      else [s!"Scroll: invalid direction \x27{s}\x27"]
    | _ =>
      let tn := v.type_name
      [s!"Scroll: \x27direction\x27 must be a string, got {tn}"]
  else if k = "accessible" then
    validate_accessible_prop "Scroll" v
  else
    [s!"Scroll: unknown prop \x27{k}\x27"]

/-- `validate_layout_node` (`layout.rs`) — per-prop dispatch for
`Column`/`Row`/`Scroll`; any other component type is skipped (“Not a layout
component”), returning no errors. -/
def validate_layout_node (node : SurfaceNode) : List String :=
  let ct := node.component_type
  if ct = "Column" ∨ ct = "Row" then
    node.props.foldr (fun kv acc => columnRowPropErrors ct kv ++ acc) []
  else if ct = "Scroll" then
    node.props.foldr (fun kv acc => scrollPropErrors kv ++ acc) []
  else []

/-! ## JSON serialization (`serde_json`, modelled at the value-tree level)

`Json.obj` keeps its fields in emission order, so deterministic key order of
the textual output is field order of the tree.  Numbers inherit the `Rat`
model of `f64`. -/

/-- A JSON value tree (the `serde_json::Value` level of the wire format). -/
inductive Json where
  | str (s : String)
  | num (n : Rat)
  | bool (b : Bool)
  | null
  | arr (xs : List Json)
  | obj (fields : List (String × Json))

/-- `Serialize for PropValue` (`#[serde(untagged)]` + the reserved-key
struct variants): primitives are bare, `Color` is `{r,g,b,a}` in field
order, `ActionRef` is `{__action, __args?}` (`__args` omitted when `None`),
`Lambda` is `{__lambda}`, lists are arrays, records are objects in sorted
key order (their `BTreeMap` iteration order). -/
def propToJson : PropValue → Json
  | .string s => .str s
  | .number n => .num n
  | .bool b => .bool b
  | .nil => .null
  | .color r g b a =>
    .obj [("r", .num r), ("g", .num g), ("b", .num b), ("a", .num a)]
  | .actionRef a none => .obj [("__action", .str a)]
  | .actionRef a (some args) =>
    .obj [("__action", .str a),
          ("__args", .arr (args.attach.map (fun x => propToJson x.1)))]
  | .lambda i => .obj [("__lambda", .num (i : Rat))]
  | .list xs => .arr (xs.attach.map (fun x => propToJson x.1))
  | .record fs => .obj (fs.attach.map (fun p => (p.1.1, propToJson p.1.2)))
termination_by v => sizeOf v
decreasing_by
  all_goals
    first
    | (have h := List.sizeOf_lt_of_mem x.2; simp_all; omega)
    | (have h := List.sizeOf_lt_of_mem p.2; cases hp : p.1; simp_all; omega)

/-- `Serialize for SurfaceNode`: `{"type", "props", "children"}` in
declaration order, `props` in sorted (`BTreeMap`) iteration order. -/
def nodeToJson : SurfaceNode → Json
  | .mk ct props children =>
    .obj [("type", .str ct),
          ("props", .obj (props.map (fun kv => (kv.1, propToJson kv.2)))),
          ("children", .arr (children.attach.map (fun c => nodeToJson c.1)))]
termination_by n => sizeOf n
decreasing_by
  have h := List.sizeOf_lt_of_mem c.2
  simp_all
  omega

/-- `Serialize for Surface`: one `root` key. -/
def surfaceToJson (s : Surface) : Json := .obj [("root", nodeToJson s.root)]

theorem alookup_mem {α : Type} {k : String} {v : α} :
    ∀ {l : List (String × α)}, alookup k l = some v → (k, v) ∈ l := by
  intro l
  induction l with
  | nil => intro h; simp [alookup] at h
  | cons hd tl ih =>
    intro h
    obtain ⟨k1, v1⟩ := hd
    by_cases he : k = k1
    · subst he
      simp [alookup] at h
      rw [h]
      exact List.mem_cons_self _ _
    · rw [alookup, if_neg he] at h
      exact List.mem_cons_of_mem _ (ih h)

/-- The `u32` test applied when `serde` tries the `Lambda` variant on a
number: an exact integer within `u32` range (the rational model of the
`i64/u64/f64` distinctions of `serde_json`). -/
def validU32 (n : Rat) : Prop := n.den = 1 ∧ 0 ≤ n.num ∧ n.num < 2 ^ 32

instance (n : Rat) : Decidable (validU32 n) := by
  unfold validU32
  infer_instance

/-- `serde`'s attempt at the `Color` variant on a JSON object: the four
fields `r,g,b,a` deserialized as numbers, unknown fields ignored. -/
def objAsColor (fields : List (String × Json)) : Option PropValue :=
  match alookup "r" fields, alookup "g" fields, alookup "b" fields,
        alookup "a" fields with
  | some (.num r), some (.num g), some (.num b), some (.num a) =>
    some (.color r g b a)
  | _, _, _, _ => none

/-- `serde`'s attempt at the `ActionRef` variant on a JSON object:
`__action` a string; `__args` absent or `null` (`args = None`) or an array
(whose elements are returned for element-wise deserialization); unknown
fields ignored. -/
def objActionHeader (fields : List (String × Json)) :
    Option (String × Option (List Json)) :=
  match alookup "__action" fields, alookup "__args" fields with
  | some (.str act), Option.none => some (act, none)
  | some (.str act), some .null => some (act, none)
  | some (.str act), some (.arr xs) => some (act, some xs)
  | _, _ => none

/-- `serde`'s attempt at the `Lambda` variant on a JSON object. -/
def objAsLambda (fields : List (String × Json)) : Option PropValue :=
  match alookup "__lambda" fields with
  | some (.num n) =>
    if validU32 n then some (.lambda n.num.toNat) else none
  | _ => none

/-- `serde`'s attempt at the `Color` variant on a JSON array (derived
`visit_seq`): exactly four numbers. -/
def seqAsColor : List Json → Option PropValue
  | [.num r, .num g, .num b, .num a] => some (.color r g b a)
  | _ => none

/-- `serde`'s attempt at the `ActionRef` variant on a JSON array: exactly
`[string, null]` or `[string, array]`. -/
def seqActionHeader : List Json → Option (String × Option (List Json))
  | [.str act, .null] => some (act, none)
  | [.str act, .arr xs] => some (act, some xs)
  | _ => none

/-- `serde`'s attempt at the `Lambda` variant on a JSON array: exactly one
valid-`u32` number. -/
def seqAsLambda : List Json → Option PropValue
  | [.num n] => if validU32 n then some (.lambda n.num.toNat) else none
  | _ => none

theorem objActionHeader_some_args {fields : List (String × Json)}
    {act : String} {args : List Json}
    (h : objActionHeader fields = some (act, some args)) :
    alookup "__args" fields = some (.arr args) := by
  unfold objActionHeader at h
  split at h
  · simp at h
  · simp at h
  · rename_i heq1 heq2
    simp only [Option.some.injEq, Prod.mk.injEq] at h
    rw [heq2, h.2]
  · simp at h

theorem seqActionHeader_some_args {xs : List Json} {act : String}
    {args : List Json}
    (h : seqActionHeader xs = some (act, some args)) :
    xs = [.str act, .arr args] := by
  unfold seqActionHeader at h
  split at h
  · simp at h
  · rename_i act1 xs1
    simp only [Option.some.injEq, Prod.mk.injEq] at h
    rw [h.1, h.2]
  · simp at h

/-- `Deserialize for PropValue` (`#[serde(untagged)]`), total at the
value-tree level because `Record`/`List` accept any object/array.  `serde`
tries the variants in declaration order: on an object — `Color`, then
`ActionRef`, then `Lambda`, then the `Record` fallback whose entries are
deserialized element-wise and collected into the `BTreeMap`; on an array —
the same struct variants through their derived `visit_seq` forms, then
`List`. -/
def jsonToProp : Json → PropValue
  | .str s => .string s
  | .num n => .number n
  | .bool b => .bool b
  | .null => .nil
  | .arr xs =>
    match seqAsColor xs with
    | some c => c
    | Option.none =>
      match hA : seqActionHeader xs with
      | some (act, Option.none) => .actionRef act none
      | some (act, some args) =>
        .actionRef act (some (args.attach.map (fun x => jsonToProp x.1)))
      | Option.none =>
        match seqAsLambda xs with
        | some l => l
        | Option.none => .list (xs.attach.map (fun x => jsonToProp x.1))
  | .obj fields =>
    match objAsColor fields with
    | some c => c
    | Option.none =>
      match hB : objActionHeader fields with
      | some (act, Option.none) => .actionRef act none
      | some (act, some args) =>
        .actionRef act (some (args.attach.map (fun x => jsonToProp x.1)))
      | Option.none =>
        match objAsLambda fields with
        | some l => l
        | Option.none =>
          .record (buildMap (fields.attach.map
            (fun p => (p.1.1, jsonToProp p.1.2))))
termination_by j => sizeOf j
decreasing_by
  · have hxs := seqActionHeader_some_args hA
    have h := List.sizeOf_lt_of_mem x.2
    subst hxs
    simp_all
    omega
  · have h := List.sizeOf_lt_of_mem x.2
    simp_all
    omega
  · have hmem := alookup_mem (objActionHeader_some_args hB)
    have h1 := List.sizeOf_lt_of_mem hmem
    have h := List.sizeOf_lt_of_mem x.2
    simp_all
    omega
  · have h := List.sizeOf_lt_of_mem p.2
    cases hp : p.1
    simp_all
    omega

/-- Collects child deserialization results; any failure fails the vector
(`serde` errors on the first bad element). -/
def collectSome {α : Type} : List (Option α) → Option (List α)
  | [] => some []
  | Option.none :: _ => none
  | some x :: rest => (collectSome rest).map (fun r => x :: r)

/-- `Deserialize for SurfaceNode` from a JSON object: requires a string
`type`, an object `props` (collected into the `BTreeMap`) and an array
`children`; unknown fields are ignored.  (The positional sequence encoding
that `serde` derive would also accept is not modelled: the serializer never
emits it, and no claim depends on it.) -/
def jsonToNode : Json → Option SurfaceNode
  | .obj fields =>
    match alookup "type" fields, alookup "props" fields,
          h3 : alookup "children" fields with
    | some (.str ct), some (.obj pf), some (.arr cs) =>
      let props := buildMap (pf.map (fun kv => (kv.1, jsonToProp kv.2)))
      (collectSome (cs.attach.map (fun c => jsonToNode c.1))).map
        (fun children => SurfaceNode.mk ct props children)
    | _, _, _ => none
  | _ => none
termination_by j => sizeOf j
decreasing_by
  have hmem := alookup_mem h3
  have h1 := List.sizeOf_lt_of_mem hmem
  have h2 := List.sizeOf_lt_of_mem c.2
  simp_all
  omega

/-- `Deserialize for Surface`: the single `root` field. -/
def jsonToSurface : Json → Option Surface
  | .obj fields =>
    match alookup "root" fields with
    | some j => (jsonToNode j).map Surface.mk
    | Option.none => none
  | _ => none

/-! ## The safe fragment for the round-trip

`serde`'s untagged encoding conflates a plain `Record`/`List` with the
reserved `Color`/`ActionRef`/`Lambda` encodings whenever the plain value
happens to match one of the reserved shapes; `safeProp` carves out the
values whose serialization deserializes back unambiguously. -/

/-- The round-trip-safe values: records carry sorted keys (the `BTreeMap`
invariant), lambda ids fit in `u32`, and no record or list serializes into
one of the reserved `Color`/`ActionRef`/`Lambda` shapes; recursively so. -/
def safeProp : PropValue → Bool
  | .string _ => true
  | .number _ => true
  | .bool _ => true
  | .nil => true
  | .color _ _ _ _ => true
  | .lambda i => decide (i < 2 ^ 32)
  | .actionRef _ none => true
  | .actionRef _ (some xs) => xs.attach.all (fun x => safeProp x.1)
  | .list xs =>
    (seqAsColor (xs.map propToJson)).isNone &&
      (seqActionHeader (xs.map propToJson)).isNone &&
      (seqAsLambda (xs.map propToJson)).isNone &&
      xs.attach.all (fun x => safeProp x.1)
  | .record fs =>
    decide (keysSorted fs) &&
      (objAsColor (fs.map (fun p => (p.1, propToJson p.2)))).isNone &&
      (objActionHeader (fs.map (fun p => (p.1, propToJson p.2)))).isNone &&
      (objAsLambda (fs.map (fun p => (p.1, propToJson p.2)))).isNone &&
      fs.attach.all (fun p => safeProp p.1.2)
termination_by v => sizeOf v
decreasing_by
  all_goals
    first
    | (have h := List.sizeOf_lt_of_mem x.2; simp_all; omega)
    | (have h := List.sizeOf_lt_of_mem p.2; cases hp : p.1; simp_all; omega)

/-- Round-trip safety of a node: sorted props with safe values, safe
children. -/
def safeNode : SurfaceNode → Bool
  | .mk _ props children =>
    decide (keysSorted props) &&
      props.attach.all (fun p => safeProp p.1.2) &&
      children.attach.all (fun c => safeNode c.1)
termination_by n => sizeOf n
decreasing_by
  all_goals
    first
    | (have h := List.sizeOf_lt_of_mem c.2; simp_all; omega)
    | (have h := List.sizeOf_lt_of_mem p.2; cases hp : p.1; simp_all; omega)

/-! ## Unfolding equations for the recursive functions

The well-founded definitions above use `List.attach` for termination; these
restate their equations with plain `List.map`/`List.all` for rewriting. -/

theorem attach_all_eq {α : Type} (l : List α) (p : α → Bool) :
    l.attach.all (fun x => p x.1) = l.all p := by
  rw [Bool.eq_iff_iff, List.all_eq_true, List.all_eq_true]
  constructor
  · intro h a ha
    exact h ⟨a, ha⟩ (List.mem_attach l _)
  · intro h x _
    exact h x.1 x.2

@[simp] theorem propToJson_string (s : String) :
    propToJson (.string s) = .str s := by rw [propToJson]

@[simp] theorem propToJson_number (n : Rat) :
    propToJson (.number n) = .num n := by rw [propToJson]

@[simp] theorem propToJson_bool (b : Bool) :
    propToJson (.bool b) = .bool b := by rw [propToJson]

@[simp] theorem propToJson_nil : propToJson .nil = .null := by rw [propToJson]

@[simp] theorem propToJson_color (r g b a : Rat) :
    propToJson (.color r g b a) =
      .obj [("r", .num r), ("g", .num g), ("b", .num b), ("a", .num a)] := by
  rw [propToJson]

@[simp] theorem propToJson_action_none (a : String) :
    propToJson (.actionRef a none) = .obj [("__action", .str a)] := by
  rw [propToJson]

@[simp] theorem propToJson_action_some (a : String) (args : List PropValue) :
    propToJson (.actionRef a (some args)) =
      .obj [("__action", .str a),
            ("__args", .arr (args.map propToJson))] := by
  rw [propToJson]
  simp [List.attach_map_val args propToJson]

@[simp] theorem propToJson_lambda (i : Nat) :
    propToJson (.lambda i) = .obj [("__lambda", .num (i : Rat))] := by
  rw [propToJson]

@[simp] theorem propToJson_list (xs : List PropValue) :
    propToJson (.list xs) = .arr (xs.map propToJson) := by
  rw [propToJson]
  simp [List.attach_map_val xs propToJson]

@[simp] theorem propToJson_record (fs : List (String × PropValue)) :
    propToJson (.record fs) =
      .obj (fs.map (fun p => (p.1, propToJson p.2))) := by
  rw [propToJson]
  exact congrArg Json.obj
    (List.attach_map_val fs (fun p => (p.1, propToJson p.2)))

@[simp] theorem nodeToJson_mk (ct : String)
    (props : List (String × PropValue)) (children : List SurfaceNode) :
    nodeToJson (.mk ct props children) =
      .obj [("type", .str ct),
            ("props", .obj (props.map (fun kv => (kv.1, propToJson kv.2)))),
            ("children", .arr (children.map nodeToJson))] := by
  rw [nodeToJson]
  simp [List.attach_map_val children nodeToJson]

@[simp] theorem jsonToProp_str (s : String) :
    jsonToProp (.str s) = .string s := by rw [jsonToProp]

@[simp] theorem jsonToProp_num (n : Rat) :
    jsonToProp (.num n) = .number n := by rw [jsonToProp]

@[simp] theorem jsonToProp_bool (b : Bool) :
    jsonToProp (.bool b) = .bool b := by rw [jsonToProp]

@[simp] theorem jsonToProp_null : jsonToProp .null = .nil := by
  rw [jsonToProp]

theorem jsonToProp_obj_color {fields : List (String × Json)}
    {c : PropValue} (h : objAsColor fields = some c) :
    jsonToProp (.obj fields) = c := by
  rw [jsonToProp, h]

theorem jsonToProp_obj_action_none {fields : List (String × Json)}
    {act : String} (h1 : objAsColor fields = none)
    (h2 : objActionHeader fields = some (act, none)) :
    jsonToProp (.obj fields) = .actionRef act none := by
  rw [jsonToProp, h1]
  split
  · simp_all
  · split <;> simp_all

theorem jsonToProp_obj_action_some {fields : List (String × Json)}
    {act : String} {args : List Json} (h1 : objAsColor fields = none)
    (h2 : objActionHeader fields = some (act, some args)) :
    jsonToProp (.obj fields) = .actionRef act (some (args.map jsonToProp)) := by
  rw [jsonToProp, h1]
  split
  · simp_all
  · split <;> simp_all [List.attach_map_val]

theorem jsonToProp_obj_lambda {fields : List (String × Json)}
    {l : PropValue} (h1 : objAsColor fields = none)
    (h2 : objActionHeader fields = none)
    (h3 : objAsLambda fields = some l) :
    jsonToProp (.obj fields) = l := by
  rw [jsonToProp, h1]
  split
  · simp_all
  · split <;> simp_all

theorem jsonToProp_obj_record {fields : List (String × Json)}
    (h1 : objAsColor fields = none) (h2 : objActionHeader fields = none)
    (h3 : objAsLambda fields = none) :
    jsonToProp (.obj fields) =
      .record (buildMap (fields.map (fun p => (p.1, jsonToProp p.2)))) := by
  rw [jsonToProp, h1]
  split
  · simp_all
  · split <;> simp_all [List.attach_map_val]
    exact congrArg buildMap
      (List.attach_map_val fields (fun p => (p.1, jsonToProp p.2)))

theorem jsonToProp_arr_action_none {xs : List Json} {act : String}
    (h1 : seqAsColor xs = none)
    (h2 : seqActionHeader xs = some (act, none)) :
    jsonToProp (.arr xs) = .actionRef act none := by
  rw [jsonToProp, h1]
  split
  · simp_all
  · split <;> simp_all

theorem jsonToProp_arr_list {xs : List Json} (h1 : seqAsColor xs = none)
    (h2 : seqActionHeader xs = none) (h3 : seqAsLambda xs = none) :
    jsonToProp (.arr xs) = .list (xs.map jsonToProp) := by
  rw [jsonToProp, h1]
  split
  · simp_all
  · split <;> simp_all [List.attach_map_val]

@[simp] theorem safeProp_string (s : String) :
    safeProp (.string s) = true := by rw [safeProp]

@[simp] theorem safeProp_number (n : Rat) :
    safeProp (.number n) = true := by rw [safeProp]

@[simp] theorem safeProp_bool (b : Bool) :
    safeProp (.bool b) = true := by rw [safeProp]

@[simp] theorem safeProp_nil : safeProp .nil = true := by rw [safeProp]

@[simp] theorem safeProp_color (r g b a : Rat) :
    safeProp (.color r g b a) = true := by rw [safeProp]

@[simp] theorem safeProp_lambda (i : Nat) :
    safeProp (.lambda i) = decide (i < 2 ^ 32) := by rw [safeProp]

@[simp] theorem safeProp_action_none (a : String) :
    safeProp (.actionRef a none) = true := by rw [safeProp]

@[simp] theorem safeProp_action_some (a : String) (xs : List PropValue) :
    safeProp (.actionRef a (some xs)) = xs.all safeProp := by
  rw [safeProp, attach_all_eq]

@[simp] theorem safeProp_list (xs : List PropValue) :
    safeProp (.list xs) =
      ((seqAsColor (xs.map propToJson)).isNone &&
        (seqActionHeader (xs.map propToJson)).isNone &&
        (seqAsLambda (xs.map propToJson)).isNone &&
        xs.all safeProp) := by
  rw [safeProp, attach_all_eq]

@[simp] theorem safeProp_record (fs : List (String × PropValue)) :
    safeProp (.record fs) =
      (decide (keysSorted fs) &&
        (objAsColor (fs.map (fun p => (p.1, propToJson p.2)))).isNone &&
        (objActionHeader (fs.map (fun p => (p.1, propToJson p.2)))).isNone &&
        (objAsLambda (fs.map (fun p => (p.1, propToJson p.2)))).isNone &&
        fs.all (fun p => safeProp p.2)) := by
  rw [safeProp]
  congr 1
  rw [Bool.eq_iff_iff, List.all_eq_true, List.all_eq_true]
  constructor
  · intro h a ha
    exact h ⟨a, ha⟩ (List.mem_attach fs _)
  · intro h x _
    exact h x.1 x.2

@[simp] theorem safeNode_mk (ct : String)
    (props : List (String × PropValue)) (children : List SurfaceNode) :
    safeNode (.mk ct props children) =
      (decide (keysSorted props) &&
        props.all (fun p => safeProp p.2) &&
        children.all safeNode) := by
  rw [safeNode, attach_all_eq]
  congr 1
  congr 1
  rw [Bool.eq_iff_iff, List.all_eq_true, List.all_eq_true]
  constructor
  · intro h a ha
    exact h ⟨a, ha⟩ (List.mem_attach props _)
  · intro h x _
    exact h x.1 x.2

/-! ## Round-trip lemmas -/

theorem insertProp_append {α : Type} {k : String} {v : α} :
    ∀ {acc : List (String × α)}, (∀ a ∈ acc, keyLt a.1 k = true) →
      insertProp k v acc = acc ++ [(k, v)] := by
  intro acc
  induction acc with
  | nil => intro _; rfl
  | cons hd tl ih =>
    intro hb
    obtain ⟨k1, v1⟩ := hd
    have h1 : keyLt k1 k = true := hb (k1, v1) (List.mem_cons_self _ _)
    have h2 : keyLt k k1 = false := keyLt_asymm h1
    have h3 : k ≠ k1 := by
      intro he
      rw [he] at h1
      rw [keyLt_irrefl] at h1
      exact Bool.false_ne_true h1
    rw [insertProp_cons_gt _ _ _ h2 h3,
      ih (fun a ha => hb a (List.mem_cons_of_mem _ ha))]
    rfl

theorem foldl_insert_sorted_id {α : Type} :
    ∀ (fs acc : List (String × α)), keysSorted (acc ++ fs) →
      fs.foldl (fun ps kv => insertProp kv.1 kv.2 ps) acc = acc ++ fs := by
  intro fs
  induction fs with
  | nil => intro acc _; simp
  | cons hd rest ih =>
    intro acc hs
    obtain ⟨k, v⟩ := hd
    rw [List.foldl_cons]
    have hbound : ∀ a ∈ acc, keyLt a.1 k = true := by
      rw [keysSorted, List.pairwise_append] at hs
      intro a ha
      exact hs.2.2 a ha (k, v) (List.mem_cons_self _ _)
    rw [insertProp_append hbound]
    have hs2 : keysSorted ((acc ++ [(k, v)]) ++ rest) := by
      rw [List.append_assoc]
      exact hs
    rw [ih (acc ++ [(k, v)]) hs2, List.append_assoc]
    rfl

/-- Inserting an already-sorted entry list into an empty map reproduces
it: the `BTreeMap` collect of sorted entries is the identity. -/
theorem buildMap_sorted_id {α : Type} {fs : List (String × α)}
    (h : keysSorted fs) : buildMap fs = fs :=
  foldl_insert_sorted_id fs [] (by simpa using h)

theorem collectSome_map_some {α : Type} (l : List α) :
    collectSome (l.map some) = some l := by
  induction l with
  | nil => rfl
  | cons x rest ih => simp [collectSome, ih]

/-- Serialize-then-deserialize is the identity on round-trip-safe prop
values. -/
theorem jsonToProp_propToJson :
    ∀ (v : PropValue), safeProp v = true → jsonToProp (propToJson v) = v := by
  intro v
  induction v using propToJson.induct with
  | case1 s => intro _; simp
  | case2 n => intro _; simp
  | case3 b => intro _; simp
  | case4 => intro _; simp
  | case5 r g b a =>
    intro _
    rw [propToJson_color]
    exact jsonToProp_obj_color rfl
  | case6 a =>
    intro _
    rw [propToJson_action_none]
    exact jsonToProp_obj_action_none rfl rfl
  | case7 a args ih =>
    intro h
    rw [propToJson_action_some]
    rw [jsonToProp_obj_action_some (by rfl) (by rfl), List.map_map]
    have hall : ∀ x ∈ args, safeProp x = true := by
      rw [safeProp, attach_all_eq, List.all_eq_true] at h
      exact h
    have : args.map (jsonToProp ∘ propToJson) = args.map id := by
      apply List.map_congr_left
      intro x hx
      exact ih ⟨x, hx⟩ (hall x hx)
    rw [this, List.map_id]
  | case8 i =>
    intro h
    rw [safeProp_lambda, decide_eq_true_eq] at h
    rw [propToJson_lambda]
    have hv : validU32 ((i : Nat) : Rat) := by
      refine ⟨Rat.den_natCast i, ?_, ?_⟩
      · rw [Rat.num_natCast]
        exact Int.natCast_nonneg i
      · rw [Rat.num_natCast]
        exact_mod_cast h
    have hl : objAsLambda [("__lambda", Json.num ((i : Nat) : Rat))]
        = some (.lambda i) := by
      rw [objAsLambda]
      simp [alookup, if_pos hv, Rat.num_natCast]
    exact jsonToProp_obj_lambda rfl rfl hl
  | case9 xs ih =>
    intro h
    rw [safeProp_list] at h
    simp only [Bool.and_eq_true, Option.isNone_iff_eq_none] at h
    obtain ⟨⟨⟨h1, h2⟩, h3⟩, h4⟩ := h
    rw [propToJson_list, jsonToProp_arr_list h1 h2 h3, List.map_map]
    rw [List.all_eq_true] at h4
    have : xs.map (jsonToProp ∘ propToJson) = xs.map id := by
      apply List.map_congr_left
      intro x hx
      exact ih ⟨x, hx⟩ (h4 x hx)
    rw [this, List.map_id]
  | case10 fs ih =>
    intro h
    rw [safeProp_record] at h
    simp only [Bool.and_eq_true, Option.isNone_iff_eq_none,
      decide_eq_true_eq] at h
    obtain ⟨⟨⟨⟨hs, h1⟩, h2⟩, h3⟩, h4⟩ := h
    rw [propToJson_record, jsonToProp_obj_record h1 h2 h3, List.map_map]
    rw [List.all_eq_true] at h4
    have hmap : fs.map ((fun p => (p.1, jsonToProp p.2)) ∘
        (fun p => (p.1, propToJson p.2))) = fs.map id := by
      apply List.map_congr_left
      intro p hp
      simp only [Function.comp_apply, id_eq]
      rw [ih ⟨p, hp⟩ (h4 p hp)]
    rw [hmap, List.map_id, buildMap_sorted_id hs]

/-- Deserializing the exact three-field object emitted for a node. -/
theorem jsonToNode_obj3 (ct : String) (pf : List (String × Json))
    (cs : List Json) :
    jsonToNode (.obj [("type", .str ct), ("props", .obj pf),
      ("children", .arr cs)]) =
      (collectSome (cs.map jsonToNode)).map
        (fun children => SurfaceNode.mk ct
          (buildMap (pf.map (fun kv => (kv.1, jsonToProp kv.2)))) children) := by
  rw [jsonToNode]
  simp [alookup, List.attach_map_val cs jsonToNode]

/-- Serialize-then-deserialize is the identity on round-trip-safe nodes. -/
theorem jsonToNode_nodeToJson :
    ∀ (n : SurfaceNode), safeNode n = true →
      jsonToNode (nodeToJson n) = some n := by
  intro n
  induction n using nodeToJson.induct with
  | case1 ct props children ih =>
    intro h
    rw [safeNode_mk] at h
    simp only [Bool.and_eq_true, decide_eq_true_eq, List.all_eq_true] at h
    obtain ⟨⟨hs, hp⟩, hc⟩ := h
    rw [nodeToJson_mk, jsonToNode_obj3, List.map_map]
    have hprops : props.map ((fun kv => (kv.1, jsonToProp kv.2)) ∘
        (fun kv => (kv.1, propToJson kv.2))) = props.map id := by
      apply List.map_congr_left
      intro p hp2
      simp only [Function.comp_apply, id_eq]
      rw [jsonToProp_propToJson p.2 (hp p hp2)]
    rw [hprops, List.map_id, buildMap_sorted_id hs, List.map_map]
    have hchildren : children.map (jsonToNode ∘ nodeToJson) =
        children.map some := by
      apply List.map_congr_left
      intro c hc2
      exact ih ⟨c, hc2⟩ (hc c hc2)
    rw [hchildren, collectSome_map_some]
    rfl

/-! ## Claim theorems -/

/-- C1: the claim says every one of the ten builders invokes the
accessibility defaulting step, so every built node carries an
`"accessible"` prop.  In the code only the layout and list builders call
`ensure_accessible`; the Text, ProgressBar, Button, TextInput, Modal and
Toast builders return nodes with no `"accessible"` prop (their own test
suite, e.g. `text_builder_has_accessible`, requires one), while Column,
Row, Scroll and ScrollList builders do attach it. -/
theorem C1_six_builders_skip_ensure_accessible :
    alookup "accessible" ((TextBuilder.new "hi").build).props = none ∧
    alookup "accessible" ((ProgressBarBuilder.new (1 / 2)).build).props
      = none ∧
    alookup "accessible"
      ((ButtonBuilder.new "OK" (PropValue.action "ok")).build).props = none ∧
    alookup "accessible"
      ((TextInputBuilder.new "v" (.lambda 1)).build).props = none ∧
    alookup "accessible"
      ((ModalBuilder.new true (PropValue.action "close")).build).props
      = none ∧
    alookup "accessible" ((ToastBuilder.new "Saved!").build).props = none ∧
    (ColumnBuilder.new.build).map
      (fun n => (alookup "accessible" n.props).isSome) = some true ∧
    (RowBuilder.new.build).map
      (fun n => (alookup "accessible" n.props).isSome) = some true ∧
    (ScrollBuilder.new.build).map
      (fun n => (alookup "accessible" n.props).isSome) = some true ∧
    ((ScrollListBuilder.new (.list []) (.lambda 1) (.lambda 2)).build).map
      (fun n => (alookup "accessible" n.props).isSome) = some true :=
  ⟨rfl, rfl, rfl, rfl, rfl, rfl, rfl, rfl, rfl, rfl⟩

set_option maxRecDepth 40000 in
/-- C2: the claim says a Text label longer than 100 *characters* is
truncated to its first 100 characters plus an ellipsis (101 characters,
multi-byte safe).  The code tests `value.len() > 100` in *bytes* and slices
`&value[..100]` at a *byte* index: 200 copies of `¢` (2 bytes each) yield a
label of the first 50 characters plus the ellipsis — 51 characters, not
101. -/
theorem C2_truncation_counts_bytes_not_chars :
    auto_label "Text"
        ((TextBuilder.new (String.mk (List.replicate 200 '¢'))).build).props
      = some (String.mk (List.replicate 50 '¢' ++ ['…'])) ∧
    (String.mk (List.replicate 50 '¢' ++ ['…'])).length = 51 :=
  ⟨rfl, rfl⟩

/-- C4: the claim says every category validator delegates an
`"accessible"` prop to `validate_accessible_prop`.  The content,
interactive and feedback validators instead report it as an unknown prop
(shown here for Text and Button on nodes carrying a well-formed record the
accessibility validator itself accepts); only the layout and list
validators delegate (shown for Column, where a malformed value is reported
through the accessibility validator). -/
theorem C4_content_validator_rejects_accessible :
    validate_content_node
        (((TextBuilder.new "hi").build).set_prop "accessible"
          (.record [("label", .string "hi")]))
      = ["Text: unknown prop \x27accessible\x27"] ∧
    validate_accessible_prop "Text" (.record [("label", .string "hi")])
      = [] ∧
    validate_interactive_node
        (((ButtonBuilder.new "OK" (PropValue.action "ok")).build).set_prop
          "accessible" (.record [("label", .string "OK")]))
      = ["Button: unknown prop \x27accessible\x27"] ∧
    validate_layout_node
        ((SurfaceNode.new "Column").set_prop "accessible" (.string "bad"))
      = ["Column.accessible: expected record, got string"] :=
  ⟨rfl, rfl, rfl, rfl⟩

/-- C5: the claim says `Toast("Saved!")` builds a node whose
`"accessible"` prop is `{label:"Saved!", role:"alert",
live_region:"assertive"}` and that the feedback validator accepts it.  The
built node carries no `"accessible"` prop at all (the builder never calls
`ensure_accessible`), and had the defaulting step been applied, the
feedback validator would reject the node with an unknown-prop error. -/
theorem C5_toast_lacks_accessible_record :
    alookup "accessible" ((ToastBuilder.new "Saved!").build).props = none ∧
    validate_feedback_node ((ToastBuilder.new "Saved!").build) = [] ∧
    (ensure_accessible ((ToastBuilder.new "Saved!").build)).map
        validate_feedback_node
      = some ["Toast: unknown prop \x27accessible\x27"] :=
  ⟨rfl, rfl, rfl⟩

/-- C8: `ProgressBar::new` clamps `-0.5` to `0.0`, `1.5` to `1.0` and
stores `0.75` unchanged, and `auto_accessible` on the built `0.75` node
yields label `"75% complete"` and value `"75%"` with role `progressbar`
(percent = `round(value * 100)`). -/
theorem C8_progress_bar_clamp_and_percent :
    (ProgressBarBuilder.new (-(1 / 2) : Rat)).value = 0 ∧
    (ProgressBarBuilder.new (3 / 2)).value = 1 ∧
    (ProgressBarBuilder.new (3 / 4)).value = 3 / 4 ∧
    auto_accessible "ProgressBar"
        ((ProgressBarBuilder.new (3 / 4)).build).props
      = some { label := "75% complete", hint := none,
               role := some .progressBar, value := some "75%",
               live_region := none } := by
  have h34 : rustClamp ((3 : Rat) / 4) 0 1 = 3 / 4 := by
    rw [rustClamp, if_neg (by norm_num), if_neg (by norm_num)]
  have hr : rustRound ((3 : Rat) / 4 * 100) = 75 := by
    rw [rustRound, if_pos (by norm_num)]
    norm_num
  refine ⟨?_, ?_, ?_, ?_⟩
  · show rustClamp (-(1 / 2) : Rat) 0 1 = 0
    rw [rustClamp, if_pos (by norm_num)]
  · show rustClamp ((3 : Rat) / 2) 0 1 = 1
    rw [rustClamp, if_neg (by norm_num), if_pos (by norm_num)]
  · exact h34
  · rw [show ((ProgressBarBuilder.new (3 / 4)).build).props
        = [("value", PropValue.number (rustClamp ((3 : Rat) / 4) 0 1))]
      from rfl, h34]
    rw [show auto_accessible "ProgressBar"
          [("value", PropValue.number ((3 : Rat) / 4))]
        = some { label := s!"{rustRound ((3 : Rat) / 4 * 100)}% complete",
                 hint := none, role := some .progressBar,
                 value := some s!"{rustRound ((3 : Rat) / 4 * 100)}%",
                 live_region := none }
      from rfl, hr]
    rfl

/-- C9: `ensure_accessible` is a no-op on a node already carrying an
`"accessible"` prop, and on a node without one it only inserts the
auto-derived `"accessible"` record: component type, children, and the
lookup of every other prop key are unchanged. -/
theorem C9_ensure_accessible_frame (node : SurfaceNode) :
    ((alookup "accessible" node.props).isSome →
      ensure_accessible node = some node) ∧
    (alookup "accessible" node.props = none →
      ∀ node', ensure_accessible node = some node' →
        node'.component_type = node.component_type ∧
        node'.children = node.children ∧
        (∀ k, k ≠ "accessible" →
          alookup k node'.props = alookup k node.props) ∧
        ∃ info,
          auto_accessible node.component_type node.props = some info ∧
          alookup "accessible" node'.props = some info.to_prop_value) := by
  constructor
  · intro h
    rw [ensure_accessible, if_pos h]
  · intro h node' h2
    rw [ensure_accessible, if_neg (by rw [h]; simp)] at h2
    obtain ⟨ct, ps, cs⟩ := node
    rcases hauto : auto_accessible (SurfaceNode.mk ct ps cs).component_type
        (SurfaceNode.mk ct ps cs).props with _ | info
    · rw [hauto] at h2; simp at h2
    · rw [hauto] at h2
      simp only [Option.map_some'] at h2
      obtain rfl := Option.some.inj h2
      refine ⟨rfl, rfl, ?_, info, rfl, ?_⟩
      · intro k hk
        show alookup k (insertProp "accessible" _ ps) = alookup k ps
        rw [alookup_insertProp, if_neg hk]
      · show alookup "accessible" (insertProp "accessible" _ ps) = _
        rw [alookup_insertProp, if_pos rfl]

/-- C9 witness: the no-op half at a Button node with an authored record,
and the frame half at the built Toast node (its `message` lookup is
unchanged by the defaulting step). -/
theorem C9_ensure_accessible_frame_witness :
    ensure_accessible
        ((SurfaceNode.new "Button").set_prop "accessible"
          (.record [("label", .string "x")]))
      = some ((SurfaceNode.new "Button").set_prop "accessible"
          (.record [("label", .string "x")])) ∧
    alookup "message"
        (((ToastBuilder.new "hi").build).set_prop "accessible"
          (.record [("label", .string "hi"),
                    ("live_region", .string "assertive"),
                    ("role", .string "alert")])).props
      = alookup "message" ((ToastBuilder.new "hi").build).props :=
  ⟨(C9_ensure_accessible_frame _).1 (by rfl),
   ((C9_ensure_accessible_frame ((ToastBuilder.new "hi").build)).2 (by rfl)
      (((ToastBuilder.new "hi").build).set_prop "accessible"
        (.record [("label", .string "hi"),
                  ("live_region", .string "assertive"),
                  ("role", .string "alert")]))
      (by rfl)).2.2.1 "message" (by decide)⟩

/-- C6 counterexample: the claim says each of the five category validators
returns exactly one error naming an unhandled component type; the layout
validator instead skips such nodes and returns no error at all. -/
theorem C6_layout_validator_skips_unknown :
    validate_layout_node (SurfaceNode.new "FooBar") = [] := rfl

/-- C6 (amended): the content, interactive, list and feedback validators
each return exactly one error naming an unhandled component type; the
layout validator returns no errors for component types it does not handle
(it skips them). -/
theorem C6_unknown_component_errors (node : SurfaceNode) :
    (node.component_type ≠ "Text" → node.component_type ≠ "ProgressBar" →
      validate_content_node node =
        ["Unknown content component: " ++ node.component_type]) ∧
    (node.component_type ≠ "Button" → node.component_type ≠ "TextInput" →
      validate_interactive_node node =
        ["Unknown interactive component: " ++ node.component_type]) ∧
    (node.component_type ≠ "ScrollList" →
      validate_list_node node =
        ["Unknown list component: " ++ node.component_type]) ∧
    (node.component_type ≠ "Modal" → node.component_type ≠ "Toast" →
      validate_feedback_node node =
        ["Unknown feedback component: " ++ node.component_type]) ∧
    (node.component_type ≠ "Column" → node.component_type ≠ "Row" →
      node.component_type ≠ "Scroll" →
      validate_layout_node node = []) := by
  refine ⟨?_, ?_, ?_, ?_, ?_⟩
  · intro h1 h2
    rw [validate_content_node]
    simp only [if_neg h1, if_neg h2]
  · intro h1 h2
    rw [validate_interactive_node]
    simp only [if_neg h1, if_neg h2]
  · intro h1
    rw [validate_list_node]
    simp only [if_neg h1]
  · intro h1 h2
    rw [validate_feedback_node]
    simp only [if_neg h1, if_neg h2]
  · intro h1 h2 h3
    rw [validate_layout_node]
    have hor : ¬(node.component_type = "Column" ∨
        node.component_type = "Row") := by
      rintro (h | h)
      exacts [h1 h, h2 h]
    simp only [if_neg hor, if_neg h3]

/-- C6 witness: the five validators applied to a `FooBar` node. -/
theorem C6_unknown_component_errors_witness :
    validate_content_node (SurfaceNode.new "FooBar")
      = ["Unknown content component: " ++ "FooBar"] ∧
    validate_interactive_node (SurfaceNode.new "FooBar")
      = ["Unknown interactive component: " ++ "FooBar"] ∧
    validate_list_node (SurfaceNode.new "FooBar")
      = ["Unknown list component: " ++ "FooBar"] ∧
    validate_feedback_node (SurfaceNode.new "FooBar")
      = ["Unknown feedback component: " ++ "FooBar"] ∧
    validate_layout_node (SurfaceNode.new "FooBar") = [] :=
  ⟨(C6_unknown_component_errors (SurfaceNode.new "FooBar")).1
      (by decide) (by decide),
   (C6_unknown_component_errors (SurfaceNode.new "FooBar")).2.1
      (by decide) (by decide),
   (C6_unknown_component_errors (SurfaceNode.new "FooBar")).2.2.1
      (by decide),
   (C6_unknown_component_errors (SurfaceNode.new "FooBar")).2.2.2.1
      (by decide) (by decide),
   (C6_unknown_component_errors (SurfaceNode.new "FooBar")).2.2.2.2
      (by decide) (by decide) (by decide)⟩

/-! ## C3: deterministic sorted serialization of props -/

/-- A sequence of `set_prop` calls on a node (the only way props are
written). -/
def applyProps (node : SurfaceNode)
    (entries : List (String × PropValue)) : SurfaceNode :=
  entries.foldl (fun n kv => n.set_prop kv.1 kv.2) node

/-- The key list of the `props` object inside a serialized node — the
order in which the serializer emits the prop keys. -/
def jsonPropsKeys (j : Json) : Option (List String) :=
  match j with
  | .obj fields =>
    match alookup "props" fields with
    | some (.obj pf) => some (pf.map Prod.fst)
    | _ => none
  | _ => none

theorem applyProps_props (entries : List (String × PropValue)) :
    ∀ (ct : String) (ps : List (String × PropValue))
      (cs : List SurfaceNode),
      applyProps (SurfaceNode.mk ct ps cs) entries =
        SurfaceNode.mk ct
          (entries.foldl (fun ps kv => insertProp kv.1 kv.2 ps) ps) cs := by
  induction entries with
  | nil => intro ct ps cs; rfl
  | cons kv rest ih =>
    intro ct ps cs
    rw [applyProps, List.foldl_cons]
    exact ih ct (insertProp kv.1 kv.2 ps) cs

theorem foldl_insertProp_sorted (entries : List (String × PropValue)) :
    ∀ ps, keysSorted ps →
      keysSorted (entries.foldl (fun ps kv => insertProp kv.1 kv.2 ps) ps) := by
  induction entries with
  | nil => intro ps h; exact h
  | cons kv rest ih =>
    intro ps h
    rw [List.foldl_cons]
    exact ih _ (insertProp_keysSorted kv.1 kv.2 h)

theorem foldl_insertProp_perm {entries entries' : List (String × PropValue)}
    (hp : entries.Perm entries')
    (hnd : (entries.map Prod.fst).Nodup) :
    entries.foldl (fun ps kv => insertProp kv.1 kv.2 ps) [] =
      entries'.foldl (fun ps kv => insertProp kv.1 kv.2 ps) [] := by
  apply hp.foldl_eq' ?_ []
  intro x hx y hy z
  by_cases hxy : x = y
  · rw [hxy]
  · have hpw : entries.Pairwise (fun a b => a.1 ≠ b.1) := by
      have := hnd
      rw [List.Nodup, List.pairwise_map] at this
      exact this
    have hne : x.1 ≠ y.1 :=
      hpw.forall (fun _ _ h => Ne.symm h) hx hy hxy
    exact insertProp_comm y.1 x.1 y.2 x.2 (Ne.symm hne) z

/-- C3: props written through the single keyed-set interface serialize
with keys in strictly ascending `keyLt` order — the serialized key list is
exactly the sorted props list — and any two insertion orders of the same
distinct-key entries produce the identical serialized node. -/
theorem C3_sorted_key_serialization (ct : String)
    (entries entries' : List (String × PropValue)) :
    keysSorted ((applyProps (SurfaceNode.new ct) entries).props) ∧
    jsonPropsKeys (nodeToJson (applyProps (SurfaceNode.new ct) entries)) =
      some (((applyProps (SurfaceNode.new ct) entries).props).map
        Prod.fst) ∧
    (entries.Perm entries' → (entries.map Prod.fst).Nodup →
      nodeToJson (applyProps (SurfaceNode.new ct) entries) =
        nodeToJson (applyProps (SurfaceNode.new ct) entries')) := by
  refine ⟨?_, ?_, ?_⟩
  · rw [SurfaceNode.new, applyProps_props]
    exact foldl_insertProp_sorted entries [] (by simp [keysSorted])
  · rw [SurfaceNode.new, applyProps_props]
    rw [SurfaceNode.props, nodeToJson_mk, jsonPropsKeys]
    simp [alookup, List.map_map]
  · intro hp hnd
    rw [SurfaceNode.new, applyProps_props, applyProps_props,
      foldl_insertProp_perm hp hnd]

/-- C3 witness: the four props `weight, size, accessible, value` inserted
in two opposite orders: both serializations agree, and the key order is
exactly `accessible, size, value, weight`. -/
theorem C3_sorted_key_serialization_witness :
    nodeToJson (applyProps (SurfaceNode.new "Text")
        [("weight", .string "bold"), ("size", .string "body"),
         ("accessible", .record [("label", .string "x")]),
         ("value", .string "v")]) =
      nodeToJson (applyProps (SurfaceNode.new "Text")
        [("value", .string "v"),
         ("accessible", .record [("label", .string "x")]),
         ("size", .string "body"), ("weight", .string "bold")]) ∧
    ((applyProps (SurfaceNode.new "Text")
        [("weight", .string "bold"), ("size", .string "body"),
         ("accessible", .record [("label", .string "x")]),
         ("value", .string "v")]).props).map Prod.fst =
      ["accessible", "size", "value", "weight"] :=
  ⟨(C3_sorted_key_serialization "Text"
      [("weight", .string "bold"), ("size", .string "body"),
       ("accessible", .record [("label", .string "x")]),
       ("value", .string "v")]
      [("value", .string "v"),
       ("accessible", .record [("label", .string "x")]),
       ("size", .string "body"), ("weight", .string "bold")]).2.2
    (by exact (List.reverse_perm _).symm) (by decide),
   rfl⟩

/-- C7 counterexample: the claim says `deserialize(serialize(x)) == x` for
every Surface constructible through the public builder surface.  A node
given (via the public `with_prop`) a plain record prop whose keys happen to
be `a, b, g, r` with number values serializes to the same object as a
`Color`, and the untagged deserializer reads it back as a `Color`: the
round trip is not the identity. -/
theorem C7_reserved_shape_counterexample :
    jsonToSurface (surfaceToJson (Surface.mk
        ((SurfaceNode.new "Text").with_prop "data"
          (.record [("a", PropValue.number 1), ("b", PropValue.number 1),
                    ("g", PropValue.number 1), ("r", PropValue.number 1)]))))
      = some (Surface.mk ((SurfaceNode.new "Text").with_prop "data"
          (.color 1 1 1 1))) ∧
    jsonToSurface (surfaceToJson (Surface.mk
        ((SurfaceNode.new "Text").with_prop "data"
          (.record [("a", PropValue.number 1), ("b", PropValue.number 1),
                    ("g", PropValue.number 1), ("r", PropValue.number 1)]))))
      ≠ some (Surface.mk ((SurfaceNode.new "Text").with_prop "data"
          (.record [("a", PropValue.number 1), ("b", PropValue.number 1),
                    ("g", PropValue.number 1), ("r", PropValue.number 1)]))) := by
  have heq : jsonToSurface (surfaceToJson (Surface.mk
      ((SurfaceNode.new "Text").with_prop "data"
        (.record [("a", PropValue.number 1), ("b", PropValue.number 1),
                  ("g", PropValue.number 1), ("r", PropValue.number 1)]))))
      = some (Surface.mk ((SurfaceNode.new "Text").with_prop "data"
          (.color 1 1 1 1))) := by
    show jsonToSurface (surfaceToJson (Surface.mk (SurfaceNode.mk "Text"
        [("data", PropValue.record
          [("a", PropValue.number 1), ("b", PropValue.number 1),
           ("g", PropValue.number 1), ("r", PropValue.number 1)])] [])))
      = some (Surface.mk (SurfaceNode.mk "Text"
          [("data", PropValue.color 1 1 1 1)] []))
    rw [surfaceToJson, nodeToJson_mk]
    simp only [List.map_cons, List.map_nil, propToJson_record,
      propToJson_number]
    rw [jsonToSurface]
    simp only [alookup, if_pos]
    rw [jsonToNode_obj3]
    simp only [List.map_cons, List.map_nil,
      @jsonToProp_obj_color
        [("a", Json.num 1), ("b", Json.num 1), ("g", Json.num 1),
         ("r", Json.num 1)]
        (PropValue.color 1 1 1 1) rfl]
    rfl
  refine ⟨heq, ?_⟩
  rw [heq]
  intro hcontra
  simp [SurfaceNode.with_prop, SurfaceNode.set_prop, SurfaceNode.new,
    insertProp] at hcontra

/-- C7 (amended): `deserialize(serialize(x)) == x` holds for every Surface
whose prop values avoid the reserved untagged encodings — no `Record` whose
serialized object matches the `Color` / `ActionRef` / `Lambda` key shapes
and no `List` whose serialized array matches one of their positional
shapes (`safeNode`); builder-produced numeric, string, bool, color, action,
lambda and well-formed record/list props all qualify. -/
theorem C7_roundtrip_safe (s : Surface) (h : safeNode s.root = true) :
    jsonToSurface (surfaceToJson s) = some s := by
  obtain ⟨root⟩ := s
  rw [surfaceToJson, jsonToSurface]
  simp only [alookup, if_pos]
  rw [jsonToNode_nodeToJson root h]
  rfl

/-- C7 witness: the round trip at a small safe Surface. -/
theorem C7_roundtrip_safe_witness :
    jsonToSurface (surfaceToJson (Surface.mk ((ToastBuilder.new "hi").build)))
      = some (Surface.mk ((ToastBuilder.new "hi").build)) :=
  C7_roundtrip_safe _ (by
    show safeNode (SurfaceNode.mk "Toast"
      [("message", PropValue.string "hi")] []) = true
    simp [safeNode_mk, keysSorted])

/-- C10: the claim says `auto_accessible` (hence `ensure_accessible`)
never panics, even on multi-byte Text values longer than 100 bytes.  With
a `value` of 34 copies of `€` (3 bytes each, 102 bytes), byte index 100
falls inside a character and the slice `&value[..100]` panics (`none` in
the model), so neither function is total. -/
theorem C10_auto_label_panics_on_multibyte :
    auto_label "Text"
        ((TextBuilder.new (String.mk (List.replicate 34 '€'))).build).props
      = none ∧
    auto_accessible "Text"
        ((TextBuilder.new (String.mk (List.replicate 34 '€'))).build).props
      = none ∧
    ensure_accessible
        ((TextBuilder.new (String.mk (List.replicate 34 '€'))).build)
      = none :=
  ⟨rfl, rfl, rfl⟩

end PeplUI
